import Mathlib

/-!
Verification of the SkyPulse storm-detection core against its specification.

The definitions below are a shallow embedding of the Python sources
(compute/boundaries.py, compute/storms.py, compute/impact.py,
services/storms.py).  Machine floats are modelled as exact rationals where
the code only performs field/comparison operations, and as real numbers
where trigonometry or square roots are involved.  NaN-able cells are
modelled as Option values (none = NaN / missing).
-/

namespace SkyPulse

/-- Python float modulo for a positive modulus: x % m = x - m * floor (x / m). -/
def fmod {α : Type} [LinearOrderedField α] [FloorRing α] (x m : α) : α :=
  x - m * (⌊x / m⌋ : ℤ)

/-- numpy arange start..stop (exclusive) with a positive step:
start + i * step for i < ceil ((stop - start) / step). -/
def arange {α : Type} [LinearOrderedField α] [FloorRing α] (start stop step : α) : List α :=
  (List.range (Int.toNat ⌈(stop - start) / step⌉)).map (fun (i : ℕ) => start + (i : α) * step)

/-- np.max over a list (0 for the empty list; callers guard non-emptiness). -/
def listMax {α : Type} [LinearOrder α] [Zero α] (l : List α) : α :=
  match l with
  | [] => 0
  | x :: xs => xs.foldl max x

/-- np.percentile (the default linear interpolation) at q = 95:
sort ascending, virtual index v = 0.95 * (n-1), interpolate between
the two bracketing order statistics.  0.95 * (n-1) = (19*(n-1)) / 20 exactly. -/
def percentile95 {α : Type} [LinearOrderedField α] (l : List α) : α :=
  let s := List.insertionSort (fun a b : α => a ≤ b) l
  let n := l.length
  let m := 19 * (n - 1)
  let lo := m / 20
  let fr : α := ((m % 20 : ℕ) : α) / 20
  let alo := s.getD lo 0
  let ahi := s.getD (lo + 1) alo
  alo + fr * (ahi - alo)

/-! ## compute/boundaries.py : grid_boundary_field (lines 126-160)

The input df_scored is a station table that carries lon/lat plus the
optional per-variable score columns added by compute_boundary_candidates.
Column presence is table-wide (pandas), hence the three flags; a present
column's NaN cells are the none values. -/

/-- One row of the scored station dataframe fed to grid_boundary_field. -/
structure GridRow (α : Type) where
  lon : α
  lat : α
  dewpoint_grad : Option α
  temp_grad : Option α
  windshift : Option α
deriving DecidableEq

/-- The scored station dataframe: rows plus which score columns exist. -/
structure ScoredDF (α : Type) where
  rows : List (GridRow α)
  hasDew : Bool
  hasTemp : Bool
  hasWind : Bool
deriving DecidableEq

/-- Combined per-station score: nan_to_num each available score column,
then max across the available columns (df[cols].max(axis=1)). -/
def stationScore {α : Type} [LinearOrderedField α] (df : ScoredDF α) (r : GridRow α) : α :=
  listMax ((if df.hasDew then [r.dewpoint_grad.getD 0] else []) ++
           (if df.hasTemp then [r.temp_grad.getD 0] else []) ++
           (if df.hasWind then [r.windshift.getD 0] else []))

/-- Grid-cell score: max combined score over stations within Euclidean
radius 1.0 degree of the cell (tree.query_ball_point, r = 1.0); 0 when no
station is near.  Distance <= 1 is encoded as squared distance <= 1. -/
def cellScore {α : Type} [LinearOrderedField α] (df : ScoredDF α) (lo la : α) : α :=
  let covered := df.rows.filter (fun r => (r.lon - lo) ^ 2 + (r.lat - la) ^ 2 ≤ 1)
  match covered with
  | [] => 0
  | _ => listMax (covered.map (stationScore df))

/-- The latitude axis of the output grid. -/
def latAxis {α : Type} [LinearOrderedField α] [FloorRing α]
    (latMin latMax res : α) : List α :=
  arange latMin (latMax + 1 / 1000000) res

/-- The longitude axis of the output grid. -/
def lonAxis {α : Type} [LinearOrderedField α] [FloorRing α]
    (lonMin lonMax res : α) : List α :=
  arange lonMin (lonMax + 1 / 1000000) res

/-- grid_boundary_field: the gridded boundary score built from station
scores, returned as (lons, lats, score-grid in [lat][lon] layout). -/
def grid_boundary_field {α : Type} [LinearOrderedField α] [FloorRing α]
    (df : ScoredDF α) (latMin latMax lonMin lonMax res : α) :
    List α × List α × List (List α) :=
  let lats := latAxis latMin latMax res
  let lons := lonAxis lonMin lonMax res
  if ¬(df.hasDew ∨ df.hasTemp ∨ df.hasWind) then
    (lons, lats, lats.map (fun _ => lons.map (fun _ => 0)))
  else
    let score := lats.map (fun la => lons.map (fun lo => cellScore df lo la))
    let flat := score.flatten
    let p95 := if flat.any (fun x => decide (0 < x)) then percentile95 flat else 1
    let p95b := if p95 ≤ 0 then 1 else p95
    (lons, lats, score.map (List.map (fun x => min 1 (max 0 (x / p95b)))))

/-- The un-normalized score grid (the state of the score array right
before the percentile normalization step). -/
def rawScoreGrid {α : Type} [LinearOrderedField α] [FloorRing α]
    (df : ScoredDF α) (latMin latMax lonMin lonMax res : α) : List (List α) :=
  (latAxis latMin latMax res).map
    (fun la => (lonAxis lonMin lonMax res).map (fun lo => cellScore df lo la))

/-- The divisor the code actually uses: the 95th percentile of ALL grid
scores when some score is positive, replaced by 1.0 when no positive
score exists or when that percentile is itself <= 0. -/
def gridDivisor {α : Type} [LinearOrderedField α] [FloorRing α]
    (df : ScoredDF α) (latMin latMax lonMin lonMax res : α) : α :=
  let flat := (rawScoreGrid df latMin latMax lonMin lonMax res).flatten
  let p95 := if flat.any (fun x => decide (0 < x)) then percentile95 flat else 1
  if p95 ≤ 0 then 1 else p95

/-- Modelled from the spec sentence of claim C1: normalization that
divides by the 95th percentile of the NON-ZERO grid scores (fallback 1.0
when no positive score exists), clipped to [0,1].  This is the claimed
behaviour, to be compared with grid_boundary_field. -/
def gridSpecClaim {α : Type} [LinearOrderedField α] [FloorRing α]
    (df : ScoredDF α) (latMin latMax lonMin lonMax res : α) :
    List α × List α × List (List α) :=
  let lats := latAxis latMin latMax res
  let lons := lonAxis lonMin lonMax res
  if ¬(df.hasDew ∨ df.hasTemp ∨ df.hasWind) then
    (lons, lats, lats.map (fun _ => lons.map (fun _ => 0)))
  else
    let score := lats.map (fun la => lons.map (fun lo => cellScore df lo la))
    let flat := score.flatten
    let p95 := if flat.any (fun x => decide (0 < x)) then
                 percentile95 (flat.filter (fun x => decide (¬ x = 0)))
               else 1
    (lons, lats, score.map (List.map (fun x => min 1 (max 0 (x / p95)))))



/-! ## Claim C1 lemmas -/

theorem foldl_max_eq_zero {α : Type} [LinearOrder α] [Zero α] :
    ∀ (l : List α) (a : α), (∀ x ∈ l, x = 0) → a = 0 → l.foldl max a = 0 := by
  intro l
  induction l with
  | nil => intro a _ ha; exact ha
  | cons x xs ih =>
    intro a h ha
    have hx : x = 0 := h x (List.mem_cons_self x xs)
    refine ih (max a x) (fun y hy => h y (List.mem_cons_of_mem x hy)) ?_
    rw [hx, ha, max_self]

theorem listMax_eq_zero {α : Type} [LinearOrder α] [Zero α] {l : List α}
    (h : ∀ x ∈ l, x = 0) : listMax l = 0 := by
  cases l with
  | nil => rfl
  | cons x xs =>
    exact foldl_max_eq_zero xs x (fun y hy => h y (List.mem_cons_of_mem x hy))
      (h x (List.mem_cons_self x xs))

theorem cellScore_eq_zero {α : Type} [LinearOrderedField α] {df : ScoredDF α}
    (h : ∀ r ∈ df.rows, stationScore df r = 0) (lo la : α) :
    cellScore df lo la = 0 := by
  unfold cellScore
  cases hcv : df.rows.filter (fun r => (r.lon - lo) ^ 2 + (r.lat - la) ^ 2 ≤ 1) with
  | nil => rfl
  | cons r rs =>
    refine listMax_eq_zero ?_
    intro x hx
    rw [← hcv] at hx
    obtain ⟨r0, hr0, hr0x⟩ := List.mem_map.mp hx
    exact hr0x ▸ h r0 (List.mem_of_mem_filter hr0)

theorem clip_zero_div {α : Type} [LinearOrderedField α] (d : α) :
    min 1 (max 0 ((0 : α) / d)) = 0 := by
  rw [zero_div, max_self, min_eq_right (zero_le_one)]

/-- grid_boundary_field is: build the raw nearest-station score grid, then
divide every cell by the gridDivisor and clip to [0,1]. -/
theorem grid_boundary_field_decomp {α : Type} [LinearOrderedField α] [FloorRing α]
    (df : ScoredDF α) (latMin latMax lonMin lonMax res : α) :
    grid_boundary_field df latMin latMax lonMin lonMax res
      = (lonAxis lonMin lonMax res, latAxis latMin latMax res,
         (rawScoreGrid df latMin latMax lonMin lonMax res).map
           (List.map (fun x =>
             min 1 (max 0 (x / gridDivisor df latMin latMax lonMin lonMax res))))) := by
  by_cases hc : df.hasDew ∨ df.hasTemp ∨ df.hasWind
  · simp only [grid_boundary_field, rawScoreGrid, gridDivisor, if_neg (not_not_intro hc)]
  · have hz : ∀ r ∈ df.rows, stationScore df r = 0 := by
      simp only [not_or, Bool.not_eq_true] at hc
      intro r _
      simp [stationScore, hc.1, hc.2.1, hc.2.2, listMax]
    have hcell : ∀ (lo la : α), cellScore df lo la = 0 := fun lo la => cellScore_eq_zero hz lo la
    simp only [grid_boundary_field, rawScoreGrid, if_pos hc]
    refine congrArg (fun z => (lonAxis lonMin lonMax res, latAxis latMin latMax res, z)) ?_
    rw [List.map_map]
    refine List.map_congr_left ?_
    intro la _
    rw [Function.comp_apply, List.map_map]
    refine (List.map_congr_left ?_).symm
    intro lo _
    rw [Function.comp_apply, hcell lo la, clip_zero_div]

/-- With every combined station score equal to zero, every cell of the
returned grid field is zero. -/
theorem grid_boundary_field_zero {α : Type} [LinearOrderedField α] [FloorRing α]
    (df : ScoredDF α) (latMin latMax lonMin lonMax res : α)
    (h : ∀ r ∈ df.rows, stationScore df r = 0) :
    ∀ row ∈ (grid_boundary_field df latMin latMax lonMin lonMax res).2.2,
      ∀ x ∈ row, x = 0 := by
  rw [grid_boundary_field_decomp]
  intro row hrow x hx
  obtain ⟨cells, hcells, hcellseq⟩ := List.mem_map.mp hrow
  subst hcellseq
  obtain ⟨c, hc, hcx⟩ := List.mem_map.mp hx
  obtain ⟨la, _, hla⟩ := List.mem_map.mp hcells
  subst hla
  obtain ⟨lo, _, hlo⟩ := List.mem_map.mp hc
  rw [← hcx, ← hlo, cellScore_eq_zero h, clip_zero_div]


/-- Amended claim C1, proved below: the code divides by the 95th
percentile of ALL grid scores, not only the non-zero ones. -/
theorem C1_grid_normalization (α : Type) [LinearOrderedField α] [FloorRing α]
    (df : ScoredDF α) (latMin latMax lonMin lonMax res : α) :
    grid_boundary_field df latMin latMax lonMin lonMax res
      = (lonAxis lonMin lonMax res, latAxis latMin latMax res,
         (rawScoreGrid df latMin latMax lonMin lonMax res).map
           (List.map (fun x =>
             min 1 (max 0 (x / gridDivisor df latMin latMax lonMin lonMax res)))))
    ∧ ((∀ r ∈ df.rows, stationScore df r = 0) →
       ∀ row ∈ (grid_boundary_field df latMin latMax lonMin lonMax res).2.2,
         ∀ x ∈ row, x = 0) :=
  ⟨grid_boundary_field_decomp df latMin latMax lonMin lonMax res,
   grid_boundary_field_zero df latMin latMax lonMin lonMax res⟩

/-- Witness for C1: a one-station table whose only score is zero; the
returned grid is entirely zero. -/
def dfW1 : ScoredDF ℚ :=
  { rows := [⟨0, 0, some 0, none, none⟩],
    hasDew := true, hasTemp := false, hasWind := false }

/-- Witness instantiation of the amended claim C1 at a concrete all-zero
station table. -/
theorem C1_witness :
    (∀ r ∈ dfW1.rows, stationScore dfW1 r = 0) ∧
    (∀ row ∈ (grid_boundary_field dfW1 (0:ℚ) 0 0 (1/2) (1/4)).2.2,
       ∀ x ∈ row, x = 0) := by
  have hz : ∀ r ∈ dfW1.rows, stationScore dfW1 r = 0 := by
    intro r hr
    simp only [dfW1, List.mem_singleton] at hr
    subst hr
    norm_num [stationScore, listMax, dfW1]
  exact ⟨hz, (C1_grid_normalization ℚ dfW1 0 0 0 (1/2) (1/4)).2 hz⟩

/-- Counterexample station table for claim C1: two stations, scores 1 and
10, each covering exactly one cell of a 3-cell single-row grid.  The raw
grid is [1, 0, 10]; the 95th percentile of all scores is 9.1 while the
95th percentile of non-zero scores is 9.55, giving visibly different
normalized grids. -/
def dfC1 : ScoredDF ℚ :=
  { rows := [⟨-9/10, 0, some 1, none, none⟩, ⟨7/5, 0, some 10, none, none⟩],
    hasDew := true, hasTemp := false, hasWind := false }

theorem latC1 : latAxis (0:ℚ) 0 (1/4) = [0] := by
  rw [latAxis, arange]
  rw [show (⌈((0:ℚ) + 1/1000000 - 0) / (1/4)⌉ : ℤ) = 1 by rw [Int.ceil_eq_iff]; norm_num]
  norm_num [List.range_succ]

theorem lonC1 : lonAxis (0:ℚ) (1/2) (1/4) = [0, 1/4, 1/2] := by
  rw [lonAxis, arange]
  rw [show (⌈((1:ℚ)/2 + 1/1000000 - 0) / (1/4)⌉ : ℤ) = 3 by rw [Int.ceil_eq_iff]; norm_num]
  rw [show List.range (Int.toNat 3) = [0, 1, 2] from rfl]
  norm_num

theorem gbfC1 : (grid_boundary_field dfC1 (0:ℚ) 0 0 (1/2) (1/4)).2.2 = [[10/91, 0, 1]] := by
  norm_num [grid_boundary_field, latC1, lonC1, cellScore,
    stationScore, listMax, percentile95, dfC1, List.insertionSort, List.orderedInsert]

theorem gscC1 : (gridSpecClaim dfC1 (0:ℚ) 0 0 (1/2) (1/4)).2.2 = [[20/191, 0, 1]] := by
  norm_num [gridSpecClaim, latC1, lonC1, cellScore,
    stationScore, listMax, percentile95, dfC1, List.insertionSort, List.orderedInsert]

/-- Counterexample to claim C1 as stated: on a concrete station table the
code's grid (divide by percentile of all scores) differs from the claimed
grid (divide by percentile of the non-zero scores): cell 0 is 10/91 in
the code's output but 20/191 under the claimed normalization. -/
theorem C1_counterexample :
    grid_boundary_field dfC1 (0:ℚ) 0 0 (1/2) (1/4)
      ≠ gridSpecClaim dfC1 (0:ℚ) 0 0 (1/2) (1/4) := by
  intro h
  have h2 := congrArg (fun t => t.2.2) h
  simp only [gbfC1, gscC1] at h2
  norm_num at h2

/-! ## compute/boundaries.py : _local_gradient_score (19-38) and
_wind_shift_score (45-62)

The scattered points xy are (lon, lat) pairs in degrees (exact rationals).
cKDTree.query(xy, k=min(k, n)) returns, for each point i, the k nearest
points by Euclidean distance including the point itself, deterministic
ties resolved by index; idxs[i, 1:] then drops the first entry.  The query
order is modelled by sorting indices on (squared distance, index); the
returned score is real-valued because distances are square roots. -/

/-- Squared Euclidean distance between points i and j of the scatter. -/
def dsqOf (xy : List (ℚ × ℚ)) (i j : ℕ) : ℚ :=
  let a := xy.getD i (0, 0)
  let b := xy.getD j (0, 0)
  (b.1 - a.1) ^ 2 + (b.2 - a.2) ^ 2

/-- kd-tree query order around point i: ascending distance, ties by index. -/
def knnRel (xy : List (ℚ × ℚ)) (i : ℕ) (a b : ℕ) : Prop :=
  dsqOf xy i a < dsqOf xy i b ∨ (dsqOf xy i a = dsqOf xy i b ∧ a ≤ b)

instance knnRelDecidable (xy : List (ℚ × ℚ)) (i : ℕ) : DecidableRel (knnRel xy i) :=
  fun a b => by unfold knnRel; infer_instance

instance knnRelTotal (xy : List (ℚ × ℚ)) (i : ℕ) : IsTotal ℕ (knnRel xy i) := by
  constructor
  intro a b
  rcases lt_trichotomy (dsqOf xy i a) (dsqOf xy i b) with h | h | h
  · exact Or.inl (Or.inl h)
  · rcases Nat.le_total a b with hab | hab
    · exact Or.inl (Or.inr ⟨h, hab⟩)
    · exact Or.inr (Or.inr ⟨h.symm, hab⟩)
  · exact Or.inr (Or.inl h)

instance knnRelTrans (xy : List (ℚ × ℚ)) (i : ℕ) : IsTrans ℕ (knnRel xy i) := by
  constructor
  intro a b c hab hbc
  rcases hab with h1 | ⟨h1, h1'⟩ <;> rcases hbc with h2 | ⟨h2, h2'⟩
  · exact Or.inl (h1.trans h2)
  · exact Or.inl (h2 ▸ h1)
  · exact Or.inl (h1 ▸ h2)
  · exact Or.inr ⟨h1.trans h2, h1'.trans h2'⟩

/-- All point indices sorted in kd-tree query order around point i. -/
def knnSorted (xy : List (ℚ × ℚ)) (i : ℕ) : List ℕ :=
  List.insertionSort (knnRel xy i) (List.range xy.length)

/-- The k = min(k, n) nearest points of point i, the point itself included
(tree.query(xy, k=min(k, len(xy)))). -/
def kNearest (xy : List (ℚ × ℚ)) (i k : ℕ) : List ℕ :=
  (knnSorted xy i).take (min k xy.length)

/-- The code's valid neighbor set of point i: drop the first query column
(idxs[i, 1:]), then keep neighbors with a finite difference value and
positive distance (m = isfinite & (dd > 0)). -/
def validNbrs (xy : List (ℚ × ℚ)) (i k : ℕ) (numOf : ℕ → Option ℚ) : List ℕ :=
  ((kNearest xy i k).drop 1).filter
    (fun j => (numOf j).isSome && decide (0 < dsqOf xy i j))

/-- Modelled from the spec wording of claim C2: the k nearest neighbors
with the point itself excluded from the neighbor set, restricted to
finite values and positive distance. -/
def specNbrs (xy : List (ℚ × ℚ)) (i k : ℕ) (numOf : ℕ → Option ℚ) : List ℕ :=
  (kNearest xy i k).filter
    (fun j => decide (j ≠ i) && ((numOf j).isSome && decide (0 < dsqOf xy i j)))

/-- The per-neighbor values |difference| / distance fed to the median. -/
noncomputable def nbrRatios (xy : List (ℚ × ℚ)) (i : ℕ) (numOf : ℕ → Option ℚ)
    (l : List ℕ) : List ℝ :=
  l.map (fun j => (((numOf j).getD 0 : ℚ) : ℝ) / Real.sqrt ((dsqOf xy i j : ℚ) : ℝ))

/-- np.median: sort, take the middle element (odd length) or the mean of
the two middle elements (even length). -/
noncomputable def median (l : List ℝ) : ℝ :=
  let s := List.insertionSort (fun a b : ℝ => a ≤ b) l
  let n := l.length
  if n % 2 = 1 then s.getD (n / 2) 0
  else (s.getD (n / 2 - 1) 0 + s.getD (n / 2) 0) / 2

/-- Score of one point given its filtered neighbor list: 0 when no valid
neighbor remains (the continue branches), else the median ratio. -/
noncomputable def scoreFromNbrs (xy : List (ℚ × ℚ)) (i : ℕ) (numOf : ℕ → Option ℚ)
    (nbrs : List ℕ) : ℝ :=
  if nbrs = [] then 0 else median (nbrRatios xy i numOf nbrs)

/-- The per-point scoring loop of _local_gradient_score (lines 24-37):
robust kNN gradient magnitude, median(|dv|/dd) over valid neighbors; val
cells are none for NaN. -/
noncomputable def gradScoresLoop (xy : List (ℚ × ℚ)) (val : List (Option ℚ))
    (k : ℕ) : List ℝ :=
  (List.range xy.length).map (fun i =>
    scoreFromNbrs xy i
      (fun j => match val.getD j none, val.getD i none with
        | some vj, some vi => some |vj - vi|
        | _, _ => none)
      (validNbrs xy i k
        (fun j => match val.getD j none, val.getD i none with
          | some vj, some vi => some |vj - vi|
          | _, _ => none)))

/-- _local_gradient_score.  scipy's tree.query(xy, k=min(k, len(xy)))
validates its k argument: a k below 1 raises ValueError (reachable when
the point set is empty), and for a scalar k == 1 the query output is
squeezed to 1-D, so the subsequent idxs[i, 1:] raises IndexError at the
first loop iteration.  Both error paths are modelled as Except.error;
for min(k, n) >= 2 the loop scores are returned. -/
noncomputable def _local_gradient_score (xy : List (ℚ × ℚ)) (val : List (Option ℚ))
    (k : ℕ) : Except String (List ℝ) :=
  if min k xy.length = 0 then Except.error "ValueError: k must be at least 1"
  else if min k xy.length = 1 then Except.error "IndexError: too many indices for array"
  else Except.ok (gradScoresLoop xy val k)

/-- The per-point scoring loop of _wind_shift_score (lines 48-61): kNN
circular wind-direction shift, median(|((dtheta+180) mod 360) - 180| / dd)
over valid neighbors. -/
noncomputable def windShiftScoresLoop (xy : List (ℚ × ℚ)) (wd : List (Option ℚ))
    (k : ℕ) : List ℝ :=
  (List.range xy.length).map (fun i =>
    scoreFromNbrs xy i
      (fun j => match wd.getD j none, wd.getD i none with
        | some wj, some wi => some |fmod (wj - wi + 180) 360 - 180|
        | _, _ => none)
      (validNbrs xy i k
        (fun j => match wd.getD j none, wd.getD i none with
          | some wj, some wi => some |fmod (wj - wi + 180) 360 - 180|
          | _, _ => none)))

/-- _wind_shift_score: the same tree.query error paths as
_local_gradient_score, then the per-point loop. -/
noncomputable def _wind_shift_score (xy : List (ℚ × ℚ)) (wd : List (Option ℚ))
    (k : ℕ) : Except String (List ℝ) :=
  if min k xy.length = 0 then Except.error "ValueError: k must be at least 1"
  else if min k xy.length = 1 then Except.error "IndexError: too many indices for array"
  else Except.ok (windShiftScoresLoop xy wd k)

/-- Modelled from the spec wording of claim C2: scalar-mode gradient score
with the point itself excluded from its k-nearest neighbor set. -/
noncomputable def specGradientScores (xy : List (ℚ × ℚ)) (val : List (Option ℚ))
    (k : ℕ) : List ℝ :=
  (List.range xy.length).map (fun i =>
    scoreFromNbrs xy i
      (fun j => match val.getD j none, val.getD i none with
        | some vj, some vi => some |vj - vi|
        | _, _ => none)
      (specNbrs xy i k
        (fun j => match val.getD j none, val.getD i none with
          | some vj, some vi => some |vj - vi|
          | _, _ => none)))

/-- Modelled from the spec wording of claim C2: angular-mode shift score
with the point itself excluded from its k-nearest neighbor set. -/
noncomputable def specWindShiftScores (xy : List (ℚ × ℚ)) (wd : List (Option ℚ))
    (k : ℕ) : List ℝ :=
  (List.range xy.length).map (fun i =>
    scoreFromNbrs xy i
      (fun j => match wd.getD j none, wd.getD i none with
        | some wj, some wi => some |fmod (wj - wi + 180) 360 - 180|
        | _, _ => none)
      (specNbrs xy i k
        (fun j => match wd.getD j none, wd.getD i none with
          | some wj, some wi => some |fmod (wj - wi + 180) 360 - 180|
          | _, _ => none)))

theorem dsqOf_self (xy : List (ℚ × ℚ)) (i : ℕ) : dsqOf xy i i = 0 := by
  simp [dsqOf]

theorem dsqOf_nonneg (xy : List (ℚ × ℚ)) (i j : ℕ) : 0 ≤ dsqOf xy i j := by
  unfold dsqOf
  positivity

theorem knnSorted_head_dsq {xy : List (ℚ × ℚ)} {i : ℕ} (hi : i < xy.length)
    {h : ℕ} {t : List ℕ} (hht : knnSorted xy i = h :: t) : dsqOf xy i h = 0 := by
  have hperm : List.Perm (knnSorted xy i) (List.range xy.length) :=
    List.perm_insertionSort (knnRel xy i) (List.range xy.length)
  have hmem : i ∈ knnSorted xy i := hperm.mem_iff.mpr (List.mem_range.mpr hi)
  have hsorted : List.Sorted (knnRel xy i) (knnSorted xy i) :=
    List.sorted_insertionSort (knnRel xy i) (List.range xy.length)
  rw [hht] at hmem hsorted
  rcases List.mem_cons.mp hmem with rfl | hit
  · exact dsqOf_self xy i
  · have hrel := List.rel_of_sorted_cons hsorted i hit
    rcases hrel with hlt | ⟨heq, _⟩
    · exact le_antisymm (le_of_lt (by rw [dsqOf_self xy i] at hlt; exact hlt))
        (dsqOf_nonneg xy i h)
    · rw [heq, dsqOf_self xy i]

theorem validNbrs_eq_specNbrs (xy : List (ℚ × ℚ)) (i k : ℕ) (numOf : ℕ → Option ℚ)
    (hi : i < xy.length) : validNbrs xy i k numOf = specNbrs xy i k numOf := by
  have hfilters : ∀ (l : List ℕ),
      l.filter (fun j => decide (j ≠ i) && ((numOf j).isSome && decide (0 < dsqOf xy i j)))
        = l.filter (fun j => (numOf j).isSome && decide (0 < dsqOf xy i j)) := by
    intro l
    refine List.filter_congr ?_
    intro j _
    by_cases hji : j = i
    · subst hji
      simp [dsqOf_self]
    · simp [hji]
  unfold validNbrs specNbrs
  cases hm : min k xy.length with
  | zero => simp [kNearest, hm]
  | succ m =>
    have hn : 0 < xy.length := by
      have h1 := Nat.min_le_right k xy.length
      rw [hm] at h1
      omega
    obtain ⟨h, t, hht⟩ : ∃ (h : ℕ) (t : List ℕ), knnSorted xy i = h :: t := by
      cases hs : knnSorted xy i with
      | nil =>
        have : (knnSorted xy i).length = xy.length := by
          rw [knnSorted, List.length_insertionSort, List.length_range]
        rw [hs] at this
        simp at this
        omega
      | cons a l => exact ⟨a, l, rfl⟩
    have hhead : dsqOf xy i h = 0 := knnSorted_head_dsq hi hht
    rw [kNearest, hht, hm, List.take_succ_cons, List.drop_one, List.tail_cons]
    rw [hfilters (h :: List.take m t), List.filter_cons]
    have : ((numOf h).isSome && decide (0 < dsqOf xy i h)) = false := by
      rw [hhead]
      simp
    rw [this]
    simp

theorem gradScoresLoop_eq_spec (xy : List (ℚ × ℚ)) (val : List (Option ℚ)) (k : ℕ) :
    gradScoresLoop xy val k = specGradientScores xy val k := by
  refine List.map_congr_left ?_
  intro i hi
  rw [validNbrs_eq_specNbrs xy i k _ (List.mem_range.mp hi)]

theorem windShiftScoresLoop_eq_spec (xy : List (ℚ × ℚ)) (wd : List (Option ℚ)) (k : ℕ) :
    windShiftScoresLoop xy wd k = specWindShiftScores xy wd k := by
  refine List.map_congr_left ?_
  intro i hi
  rw [validNbrs_eq_specNbrs xy i k _ (List.mem_range.mp hi)]

/-- Amended claim C2: whenever min(k, n) >= 2 (with the default k = 6: at
least two scattered points), both gradient scorers return, per point, the
median of |difference|/distance (scalar mode) resp.
circular-difference/distance (angular mode) over the point's k nearest
neighbors with the point itself excluded, restricted to neighbors at
positive distance with finite values, a point with no valid neighbor
scoring 0; a one-point input instead raises (scipy squeezes the k = 1
query output to 1-D and idxs[i, 1:] fails), so no scores are returned at
all. -/
theorem C2_gradient_scores (xy : List (ℚ × ℚ)) (val wd : List (Option ℚ)) (k : ℕ)
    (h : 2 ≤ min k xy.length) :
    _local_gradient_score xy val k = Except.ok (specGradientScores xy val k) ∧
    _wind_shift_score xy wd k = Except.ok (specWindShiftScores xy wd k) := by
  unfold _local_gradient_score _wind_shift_score
  rw [if_neg (by omega), if_neg (by omega), if_neg (by omega), if_neg (by omega),
    gradScoresLoop_eq_spec, windShiftScoresLoop_eq_spec]
  exact ⟨rfl, rfl⟩

theorem specNbrs_one (p : ℚ × ℚ) (f : ℕ → Option ℚ) : specNbrs [p] 0 6 f = [] := rfl

/-- Counterexample to claim C2 as stated: on the one-point input the
source raises IndexError (modelled as Except.error) where the claim
demands the zero-valid-neighbors score 0, which the spec-worded scorer
indeed produces. -/
theorem C2_counterexample :
    _local_gradient_score [((0:ℚ), (0:ℚ))] [some 1] 6
      = Except.error "IndexError: too many indices for array" ∧
    specGradientScores [((0:ℚ), (0:ℚ))] [some 1] 6 = [0] := by
  constructor
  · rfl
  · unfold specGradientScores
    rw [show List.range [((0:ℚ), (0:ℚ))].length = [0] from rfl, List.map_cons,
      List.map_nil, specNbrs_one, scoreFromNbrs, if_pos rfl]

/-- Witness instantiation of the amended claim C2 at a two-point input. -/
theorem C2_witness :
    _local_gradient_score [((0:ℚ), 0), ((1:ℚ), 0)] [some 1, some 2] 6
      = Except.ok (specGradientScores [((0:ℚ), 0), ((1:ℚ), 0)] [some 1, some 2] 6) ∧
    _wind_shift_score [((0:ℚ), 0), ((1:ℚ), 0)] [some 10, some 20] 6
      = Except.ok (specWindShiftScores [((0:ℚ), 0), ((1:ℚ), 0)] [some 10, some 20] 6) :=
  C2_gradient_scores [((0:ℚ), 0), ((1:ℚ), 0)] [some 1, some 2] [some 10, some 20] 6
    (by norm_num)

/-! ## compute/storms.py : haversine_km (68-75) and track_objects (77-106) -/

/-- math.radians. -/
noncomputable def deg2rad (x : ℝ) : ℝ := x * (Real.pi / 180)

/-- math.degrees. -/
noncomputable def rad2deg (x : ℝ) : ℝ := x * (180 / Real.pi)

/-- Great-circle distance in km, mean Earth radius 6371 km. -/
noncomputable def haversine_km (lat1 lon1 lat2 lon2 : ℝ) : ℝ :=
  let r : ℝ := 6371
  let phi1 := deg2rad lat1
  let phi2 := deg2rad lat2
  let dphi := deg2rad (lat2 - lat1)
  let dl := deg2rad (lon2 - lon1)
  let a := Real.sin (dphi / 2) ^ 2 +
    Real.cos phi1 * Real.cos phi2 * Real.sin (dl / 2) ^ 2
  2 * r * Real.arcsin (Real.sqrt a)

/-- A tracked storm object (dataclass StormObject). -/
structure StormObject where
  id : String
  lat : ℝ
  lon : ℝ
  area_km2 : ℝ
  max_composite : ℝ
  mean_composite : ℝ

/-- A previous-cycle object as read back from the persisted payload; the
claims under study supply previous objects that all carry an id. -/
structure PrevObj where
  id : String
  lat : ℝ
  lon : ℝ

/-- A raw detection tuple (lat, lon, area_km2, max, mean). -/
abbrev Det := ℝ × ℝ × ℝ × ℝ × ℝ

/-- Python enumerate starting at n. -/
def enumFromN {β : Type} : ℕ → List β → List (ℕ × β)
  | _, [] => []
  | n, x :: xs => (n, x) :: enumFromN (n + 1) xs

/-- The inner loop of track_objects: scan enumerate(prev), skip used
indices, keep the first strict minimum of the haversine distance
(best/best_d update: best_d is None or d < best_d). -/
noncomputable def bestGo (lat lon : ℝ) (used : List ℕ) :
    List (ℕ × PrevObj) → Option ((ℕ × PrevObj) × ℝ) → Option ((ℕ × PrevObj) × ℝ)
  | [], best => best
  | (j, p) :: rest, best =>
    if j ∈ used then bestGo lat lon used rest best
    else
      let d := haversine_km lat lon p.lat p.lon
      match best with
      | none => bestGo lat lon used rest (some ((j, p), d))
      | some (b, bd) =>
        if d < bd then bestGo lat lon used rest (some ((j, p), d))
        else bestGo lat lon used rest (some (b, bd))

/-- f-string id S{i:02d} (1-based index, zero-padded to width 2). -/
def mint (i : ℕ) : String := (if i < 10 then "S0" else "S") ++ Nat.repr i

/-- The outer loop of track_objects, instrumented: each output object is
paired with the index of the previous object it consumed (none when a
fresh id was minted).  i is the 1-based enumeration counter. -/
noncomputable def trackGo (prev : List PrevObj) (maxMatchKm : ℝ) :
    List ℕ → ℕ → List Det → List (StormObject × Option ℕ)
  | _, _, [] => []
  | used, i, (lat, lon, area, vmax, vmean) :: rest =>
    match bestGo lat lon used (enumFromN 0 prev) none with
    | some ((j, p), d) =>
      if d ≤ maxMatchKm then
        ({ id := p.id, lat := lat, lon := lon, area_km2 := area,
           max_composite := vmax, mean_composite := vmean }, some j)
          :: trackGo prev maxMatchKm (j :: used) (i + 1) rest
      else
        ({ id := mint i, lat := lat, lon := lon, area_km2 := area,
           max_composite := vmax, mean_composite := vmean }, none)
          :: trackGo prev maxMatchKm used (i + 1) rest
    | none =>
      ({ id := mint i, lat := lat, lon := lon, area_km2 := area,
         max_composite := vmax, mean_composite := vmean }, none)
        :: trackGo prev maxMatchKm used (i + 1) rest

/-- track_objects with the consumed-previous-index instrumentation. -/
noncomputable def track_objectsAux (current : List Det) (prev : List PrevObj)
    (maxMatchKm : ℝ) : List (StormObject × Option ℕ) :=
  trackGo prev maxMatchKm [] 1 current

/-- track_objects: assign stable IDs by matching to previous objects by
nearest centroid (greedy, in input order, gate maxMatchKm, default 60). -/
noncomputable def track_objects (current : List Det) (prev : List PrevObj)
    (maxMatchKm : ℝ) : List StormObject :=
  (track_objectsAux current prev maxMatchKm).map Prod.fst

/-- Modelled from the spec wording of claim C4: the distances to every
not-yet-used previous object, with the minimum-distance one selected
(argmin keeps the earliest on ties, matching the source's strict <). -/
noncomputable def specBest (lat lon : ℝ) (used : List ℕ) (prev : List PrevObj) :
    Option ((ℕ × PrevObj) × ℝ) :=
  (((enumFromN 0 prev).filter (fun jp => decide (jp.1 ∉ used))).map
    (fun jp => (jp, haversine_km lat lon jp.2.lat jp.2.lon))).argmin Prod.snd

/-- Modelled from the spec wording of claim C4 (section 4.5): for each
current object in order, pick the minimum-distance unused previous
object; adopt its id when within the gate, else mint S{i:02d}. -/
noncomputable def trackSpecGo (prev : List PrevObj) (maxMatchKm : ℝ) :
    List ℕ → ℕ → List Det → List StormObject
  | _, _, [] => []
  | used, i, (lat, lon, area, vmax, vmean) :: rest =>
    match specBest lat lon used prev with
    | some ((j, p), d) =>
      if d ≤ maxMatchKm then
        { id := p.id, lat := lat, lon := lon, area_km2 := area,
          max_composite := vmax, mean_composite := vmean }
          :: trackSpecGo prev maxMatchKm (j :: used) (i + 1) rest
      else
        { id := mint i, lat := lat, lon := lon, area_km2 := area,
          max_composite := vmax, mean_composite := vmean }
          :: trackSpecGo prev maxMatchKm used (i + 1) rest
    | none =>
      { id := mint i, lat := lat, lon := lon, area_km2 := area,
        max_composite := vmax, mean_composite := vmean }
        :: trackSpecGo prev maxMatchKm used (i + 1) rest

/-- The spec-worded greedy tracker. -/
noncomputable def trackSpec (current : List Det) (prev : List PrevObj)
    (maxMatchKm : ℝ) : List StormObject :=
  trackSpecGo prev maxMatchKm [] 1 current

theorem bestGo_eq_foldl (lat lon : ℝ) (used : List ℕ) :
    ∀ (pairs : List (ℕ × PrevObj)) (acc : Option ((ℕ × PrevObj) × ℝ)),
      bestGo lat lon used pairs acc =
        List.foldl (List.argAux (fun b c => b.2 < c.2)) acc
          ((pairs.filter (fun jp => decide (jp.1 ∉ used))).map
            (fun jp => (jp, haversine_km lat lon jp.2.lat jp.2.lon))) := by
  intro pairs
  induction pairs with
  | nil => intro acc; rfl
  | cons jp rest ih =>
    intro acc
    obtain ⟨j, p⟩ := jp
    by_cases hj : j ∈ used
    · rw [show bestGo lat lon used ((j, p) :: rest) acc = bestGo lat lon used rest acc by
        simp [bestGo, hj]]
      rw [ih acc]
      congr 1
      simp [List.filter_cons, hj]
    · have hfil : ((j, p) :: rest).filter (fun jp => decide (jp.1 ∉ used))
          = (j, p) :: rest.filter (fun jp => decide (jp.1 ∉ used)) := by
        simp [List.filter_cons, hj]
      rw [hfil, List.map_cons, List.foldl_cons]
      cases acc with
      | none =>
        rw [show bestGo lat lon used ((j, p) :: rest) none
            = bestGo lat lon used rest
                (some ((j, p), haversine_km lat lon p.lat p.lon)) by
          simp [bestGo, hj]]
        rw [ih]
        rfl
      | some bd =>
        obtain ⟨b, bdist⟩ := bd
        by_cases hd : haversine_km lat lon p.lat p.lon < bdist
        · rw [show bestGo lat lon used ((j, p) :: rest) (some (b, bdist))
              = bestGo lat lon used rest
                  (some ((j, p), haversine_km lat lon p.lat p.lon)) by
            simp [bestGo, hj, hd]]
          rw [ih]
          congr 1
          simp [List.argAux, hd]
        · rw [show bestGo lat lon used ((j, p) :: rest) (some (b, bdist))
              = bestGo lat lon used rest (some (b, bdist)) by
            simp [bestGo, hj, hd]]
          rw [ih]
          congr 1
          simp [List.argAux, hd]

theorem specBest_eq_bestGo (lat lon : ℝ) (used : List ℕ) (prev : List PrevObj) :
    specBest lat lon used prev = bestGo lat lon used (enumFromN 0 prev) none := by
  rw [specBest, List.argmin, bestGo_eq_foldl]

theorem trackGo_map_fst_eq_spec (prev : List PrevObj) (maxMatchKm : ℝ) :
    ∀ (cur : List Det) (used : List ℕ) (i : ℕ),
      (trackGo prev maxMatchKm used i cur).map Prod.fst
        = trackSpecGo prev maxMatchKm used i cur := by
  intro cur
  induction cur with
  | nil => intro used i; rfl
  | cons c rest ih =>
    intro used i
    obtain ⟨lat, lon, area, vmax, vmean⟩ := c
    rw [trackGo, trackSpecGo, specBest_eq_bestGo]
    cases bestGo lat lon used (enumFromN 0 prev) none with
    | none =>
      dsimp only
      rw [List.map_cons, ih]
    | some bd =>
      obtain ⟨⟨j, p⟩, d⟩ := bd
      dsimp only
      by_cases hd : d ≤ maxMatchKm
      · rw [if_pos hd, if_pos hd, List.map_cons, ih]
      · rw [if_neg hd, if_neg hd, List.map_cons, ih]

/-- The source tracker equals the spec-worded greedy tracker. -/
theorem track_objects_eq_trackSpec (current : List Det) (prev : List PrevObj)
    (maxMatchKm : ℝ) :
    track_objects current prev maxMatchKm = trackSpec current prev maxMatchKm :=
  trackGo_map_fst_eq_spec prev maxMatchKm current [] 1

theorem haversine_self (lat lon : ℝ) : haversine_km lat lon lat lon = 0 := by
  simp [haversine_km, deg2rad, sub_self, Real.sin_zero, Real.sqrt_zero, Real.arcsin_zero]

theorem trackGo_frame (prev : List PrevObj) (maxMatchKm : ℝ) :
    ∀ (cur : List Det) (used : List ℕ) (i : ℕ),
      (trackGo prev maxMatchKm used i cur).map
        (fun x => (x.1.lat, x.1.lon, x.1.area_km2, x.1.max_composite, x.1.mean_composite))
        = cur := by
  intro cur
  induction cur with
  | nil => intro used i; rfl
  | cons c rest ih =>
    intro used i
    obtain ⟨lat, lon, area, vmax, vmean⟩ := c
    rw [trackGo]
    cases bestGo lat lon used (enumFromN 0 prev) none with
    | none =>
      dsimp only
      rw [List.map_cons, ih]
    | some bd =>
      obtain ⟨⟨j, p⟩, d⟩ := bd
      dsimp only
      by_cases hd : d ≤ maxMatchKm
      · rw [if_pos hd, List.map_cons, ih]
      · rw [if_neg hd, List.map_cons, ih]

/-- Claim C10: tracking returns exactly one object per input detection,
in input order, and copies lat, lon, area_km2, max_composite and
mean_composite through unchanged; only the id field is produced by the
tracker. -/
theorem C10_track_frame (current : List Det) (prev : List PrevObj) (maxMatchKm : ℝ) :
    (track_objects current prev maxMatchKm).map
      (fun o => (o.lat, o.lon, o.area_km2, o.max_composite, o.mean_composite))
      = current := by
  rw [track_objects, track_objectsAux, List.map_map]
  exact trackGo_frame prev maxMatchKm current [] 1

theorem bestGo_some_spec (lat lon : ℝ) (used : List ℕ) :
    ∀ (pairs : List (ℕ × PrevObj)) (acc : Option ((ℕ × PrevObj) × ℝ))
      (j : ℕ) (p : PrevObj) (d : ℝ),
      bestGo lat lon used pairs acc = some ((j, p), d) →
      acc = some ((j, p), d) ∨
        ((j, p) ∈ pairs ∧ j ∉ used ∧ d = haversine_km lat lon p.lat p.lon) := by
  intro pairs
  induction pairs with
  | nil =>
    intro acc j p d h
    exact Or.inl h
  | cons jp rest ih =>
    intro acc j p d h
    obtain ⟨j0, p0⟩ := jp
    by_cases hj : j0 ∈ used
    · have h' : bestGo lat lon used rest acc = some ((j, p), d) := by
        simpa [bestGo, hj] using h
      rcases ih acc j p d h' with hl | ⟨hmem, hnu, hd⟩
      · exact Or.inl hl
      · exact Or.inr ⟨List.mem_cons_of_mem _ hmem, hnu, hd⟩
    · cases acc with
      | none =>
        have h' : bestGo lat lon used rest
            (some ((j0, p0), haversine_km lat lon p0.lat p0.lon)) = some ((j, p), d) := by
          simpa [bestGo, hj] using h
        rcases ih _ j p d h' with hl | ⟨hmem, hnu, hd⟩
        · obtain ⟨h1, h2⟩ := Option.some.inj hl |> Prod.mk.inj
          obtain ⟨h3, h4⟩ := Prod.mk.inj h1
          exact Or.inr ⟨by rw [← h3, ← h4]; exact List.mem_cons_self _ _,
            by rw [← h3]; exact hj, by rw [← h2, ← h4]⟩
        · exact Or.inr ⟨List.mem_cons_of_mem _ hmem, hnu, hd⟩
      | some bd0 =>
        obtain ⟨b, bdist⟩ := bd0
        by_cases hlt : haversine_km lat lon p0.lat p0.lon < bdist
        · have h' : bestGo lat lon used rest
              (some ((j0, p0), haversine_km lat lon p0.lat p0.lon)) = some ((j, p), d) := by
            simpa [bestGo, hj, hlt] using h
          rcases ih _ j p d h' with hl | ⟨hmem, hnu, hd⟩
          · obtain ⟨h1, h2⟩ := Option.some.inj hl |> Prod.mk.inj
            obtain ⟨h3, h4⟩ := Prod.mk.inj h1
            exact Or.inr ⟨by rw [← h3, ← h4]; exact List.mem_cons_self _ _,
              by rw [← h3]; exact hj, by rw [← h2, ← h4]⟩
          · exact Or.inr ⟨List.mem_cons_of_mem _ hmem, hnu, hd⟩
        · have h' : bestGo lat lon used rest (some (b, bdist)) = some ((j, p), d) := by
            simpa [bestGo, hj, hlt] using h
          rcases ih _ j p d h' with hl | ⟨hmem, hnu, hd⟩
          · exact Or.inl hl
          · exact Or.inr ⟨List.mem_cons_of_mem _ hmem, hnu, hd⟩

theorem mint_one : mint 1 = "S01" := rfl

/-- Claim C4: track_objects is exactly the greedy nearest-centroid
assignment described by the spec (in input order, first strict minimum
over the free previous objects, adopt when within the gate, else mint
S{i:02d} from the 1-based input position); in particular a single current
object at distance 0 from the single previous object adopts its id, and a
current object farther than the gate from every previous object gets the
minted id S01. -/
theorem C4_track_algorithm :
    (∀ (current : List Det) (prev : List PrevObj) (maxMatchKm : ℝ),
       track_objects current prev maxMatchKm = trackSpec current prev maxMatchKm) ∧
    (∀ (lat lon area vmax vmean : ℝ) (pid : String) (plat plon : ℝ),
       haversine_km lat lon plat plon = 0 →
       track_objects [(lat, lon, area, vmax, vmean)] [⟨pid, plat, plon⟩] 60
         = [⟨pid, lat, lon, area, vmax, vmean⟩]) ∧
    (∀ (lat lon area vmax vmean : ℝ) (prev : List PrevObj) (maxMatchKm : ℝ),
       (∀ jp ∈ enumFromN 0 prev, maxMatchKm < haversine_km lat lon jp.2.lat jp.2.lon) →
       track_objects [(lat, lon, area, vmax, vmean)] prev maxMatchKm
         = [⟨"S01", lat, lon, area, vmax, vmean⟩]) := by
  refine ⟨track_objects_eq_trackSpec, ?_, ?_⟩
  · intro lat lon area vmax vmean pid plat plon h
    norm_num [track_objects, track_objectsAux, trackGo, bestGo, enumFromN, h]
  · intro lat lon area vmax vmean prev maxMatchKm h
    rw [track_objects, track_objectsAux, trackGo]
    cases hbg : bestGo lat lon [] (enumFromN 0 prev) none with
    | none =>
      rw [← mint_one]
      rfl
    | some bd =>
      obtain ⟨⟨j, p⟩, d⟩ := bd
      rcases bestGo_some_spec lat lon [] (enumFromN 0 prev) none j p d hbg with hl | ⟨hmem, _, hd⟩
      · exact absurd hl (by simp)
      · have hgt : maxMatchKm < d := hd ▸ h (j, p) hmem
        dsimp only
        rw [if_neg (not_le.mpr hgt), ← mint_one]
        rfl

/-- Witness for C4 at concrete inputs: the empty instance of the
refinement, a distance-0 adoption, and an all-far minting. -/
theorem C4_witness :
    track_objects [] [] 60 = trackSpec [] [] 60 ∧
    track_objects [(1, 2, 3, 4, 5)] [⟨"A", 1, 2⟩] 60 = [⟨"A", 1, 2, 3, 4, 5⟩] ∧
    track_objects [(1, 2, 3, 4, 5)] [] 60 = [⟨"S01", 1, 2, 3, 4, 5⟩] :=
  ⟨C4_track_algorithm.1 [] [] 60,
   C4_track_algorithm.2.1 1 2 3 4 5 "A" 1 2 (haversine_self 1 2),
   C4_track_algorithm.2.2 1 2 3 4 5 [] 60
     (fun jp hjp => absurd hjp (List.not_mem_nil jp))⟩

theorem enumFromN_mem {β : Type} :
    ∀ (l : List β) (n j : ℕ) (p : β), (j, p) ∈ enumFromN n l →
      ∃ (k : ℕ) (hk : k < l.length), j = n + k ∧ l.get ⟨k, hk⟩ = p := by
  intro l
  induction l with
  | nil =>
    intro n j p h
    simp [enumFromN] at h
  | cons x xs ih =>
    intro n j p h
    rw [enumFromN] at h
    rcases List.mem_cons.mp h with heq | hmem
    · obtain ⟨h1, h2⟩ := Prod.mk.inj heq
      exact ⟨0, Nat.succ_pos xs.length, by omega, h2.symm ▸ rfl⟩
    · obtain ⟨k, hk, hj, hget⟩ := ih (n + 1) j p hmem
      exact ⟨k + 1, Nat.succ_lt_succ hk, by omega, hget⟩

theorem prev_id_ne {prev : List PrevObj} (hnd : (prev.map PrevObj.id).Nodup)
    {j j' : ℕ} {p p' : PrevObj}
    (hm : (j, p) ∈ enumFromN 0 prev) (hm' : (j', p') ∈ enumFromN 0 prev)
    (hne : j ≠ j') : p.id ≠ p'.id := by
  obtain ⟨k, hk, hj, hget⟩ := enumFromN_mem prev 0 j p hm
  obtain ⟨k', hk', hj', hget'⟩ := enumFromN_mem prev 0 j' p' hm'
  have hkk : k ≠ k' := by omega
  intro hid
  have hmk : k < (prev.map PrevObj.id).length := by simpa using hk
  have hmk' : k' < (prev.map PrevObj.id).length := by simpa using hk'
  have hgm : (prev.map PrevObj.id).get ⟨k, hmk⟩ = p.id := by
    rw [List.get_map]
    exact congrArg PrevObj.id hget
  have hgm' : (prev.map PrevObj.id).get ⟨k', hmk'⟩ = p'.id := by
    rw [List.get_map]
    exact congrArg PrevObj.id hget'
  have : (⟨k, hmk⟩ : Fin (prev.map PrevObj.id).length) = ⟨k', hmk'⟩ :=
    (List.Nodup.get_inj_iff hnd).mp (by rw [hgm, hgm', hid])
  exact hkk (Fin.mk.inj_iff.mp this)

theorem trackGo_matched (prev : List PrevObj) (maxMatchKm : ℝ) :
    ∀ (cur : List Det) (used : List ℕ) (i : ℕ) (x : StormObject × Option ℕ),
      x ∈ trackGo prev maxMatchKm used i cur → ∀ j, x.2 = some j →
      j ∉ used ∧ ∃ p, (j, p) ∈ enumFromN 0 prev ∧ x.1.id = p.id := by
  intro cur
  induction cur with
  | nil =>
    intro used i x hx
    simp [trackGo] at hx
  | cons c rest ih =>
    intro used i x hx j hj
    obtain ⟨lat, lon, area, vmax, vmean⟩ := c
    rw [trackGo] at hx
    cases hbg : bestGo lat lon used (enumFromN 0 prev) none with
    | none =>
      rw [hbg] at hx
      dsimp only at hx
      rcases List.mem_cons.mp hx with rfl | hxr
      · simp at hj
      · exact ih used (i + 1) x hxr j hj
    | some bd =>
      obtain ⟨⟨j0, p0⟩, d⟩ := bd
      rw [hbg] at hx
      dsimp only at hx
      by_cases hd : d ≤ maxMatchKm
      · rw [if_pos hd] at hx
        rcases List.mem_cons.mp hx with rfl | hxr
        · have hjj : j0 = j := Option.some.inj hj
          subst hjj
          rcases bestGo_some_spec lat lon used (enumFromN 0 prev) none j0 p0 d hbg with
            hl | ⟨hmem, hnu, _⟩
          · exact absurd hl (by simp)
          · exact ⟨hnu, p0, hmem, rfl⟩
        · obtain ⟨hnotin, p', hmem', hid'⟩ := ih (j0 :: used) (i + 1) x hxr j hj
          exact ⟨fun hju => hnotin (List.mem_cons_of_mem j0 hju), p', hmem', hid'⟩
      · rw [if_neg hd] at hx
        rcases List.mem_cons.mp hx with rfl | hxr
        · simp at hj
        · exact ih used (i + 1) x hxr j hj

theorem trackGo_pairwise (prev : List PrevObj) (maxMatchKm : ℝ)
    (hnd : (prev.map PrevObj.id).Nodup) :
    ∀ (cur : List Det) (used : List ℕ) (i : ℕ),
      List.Pairwise (fun a b => ∀ j j', a.2 = some j → b.2 = some j' →
        j ≠ j' ∧ a.1.id ≠ b.1.id) (trackGo prev maxMatchKm used i cur) := by
  intro cur
  induction cur with
  | nil => intro used i; exact List.Pairwise.nil
  | cons c rest ih =>
    intro used i
    obtain ⟨lat, lon, area, vmax, vmean⟩ := c
    rw [trackGo]
    cases hbg : bestGo lat lon used (enumFromN 0 prev) none with
    | none =>
      dsimp only
      refine List.Pairwise.cons ?_ (ih used (i + 1))
      intro b _ j j' hj _
      simp at hj
    | some bd =>
      obtain ⟨⟨j0, p0⟩, d⟩ := bd
      dsimp only
      by_cases hd : d ≤ maxMatchKm
      · rw [if_pos hd]
        refine List.Pairwise.cons ?_ (ih (j0 :: used) (i + 1))
        intro b hb j j' hj hj'
        have hjj : j0 = j := Option.some.inj hj
        subst hjj
        obtain ⟨hnotin, p', hmem', hid'⟩ :=
          trackGo_matched prev maxMatchKm rest (j0 :: used) (i + 1) b hb j' hj'
        have hne : j0 ≠ j' := fun heq => hnotin (heq ▸ List.mem_cons_self j0 used)
        rcases bestGo_some_spec lat lon used (enumFromN 0 prev) none j0 p0 d hbg with
          hl | ⟨hmem, _, _⟩
        · exact absurd hl (by simp)
        · exact ⟨hne, by rw [hid']; exact prev_id_ne hnd hmem hmem' hne⟩
      · rw [if_neg hd]
        refine List.Pairwise.cons ?_ (ih used (i + 1))
        intro b _ j j' hj _
        simp at hj

/-- Amended claim C3: in one tracking call no two current objects consume
the same previous object, and (previous ids being distinct) no previous
id is adopted by two current objects.  (The uniqueness does NOT extend to
minted ids: a minted S{i:02d} can collide with an adopted previous id,
see the counterexample.) -/
theorem C3_no_duplicate_adoption (current : List Det) (prev : List PrevObj)
    (maxMatchKm : ℝ) (hnd : (prev.map PrevObj.id).Nodup) :
    List.Pairwise (fun a b => ∀ j j', a.2 = some j → b.2 = some j' →
      j ≠ j' ∧ a.1.id ≠ b.1.id) (track_objectsAux current prev maxMatchKm) :=
  trackGo_pairwise prev maxMatchKm hnd current [] 1

theorem mint_two : mint 2 = "S02" := rfl

/-- Counterexample previous cycle for claim C3: a single previous object
whose id happens to be S02. -/
def prevC3 : List PrevObj := [⟨"S02", 0, 0⟩]

/-- Counterexample detections for claim C3: the first sits exactly on the
previous object, the second is far away (its distance to the previous
object is never even computed: the only previous object is already
consumed), so it mints S02. -/
def curC3 : List Det := [(0, 0, 1, 2, 3), (50, 50, 4, 5, 6)]

/-- Counterexample to claim C3 as stated: the output of a single tracking
call carries the id S02 twice: the first object adopts the previous id
S02 and the second object mints the fresh id S{2:02d} = S02. -/
theorem C3_counterexample :
    (track_objects curC3 prevC3 60).map StormObject.id = ["S02", "S02"] ∧
    ¬ ((track_objects curC3 prevC3 60).map StormObject.id).Nodup := by
  have h1 : (track_objects curC3 prevC3 60).map StormObject.id = ["S02", "S02"] := by
    norm_num [track_objects, track_objectsAux, trackGo, bestGo, enumFromN, curC3,
      prevC3, haversine_self, mint_two]
  refine ⟨h1, ?_⟩
  rw [h1]
  decide

/-- Witness instantiation of the amended claim C3 at a concrete call with
two distinct previous ids. -/
theorem C3_witness :
    List.Pairwise (fun a b => ∀ j j', a.2 = some j → b.2 = some j' →
      j ≠ j' ∧ a.1.id ≠ b.1.id)
      (track_objectsAux [(0, 0, 1, 2, 3), (50, 50, 4, 5, 6)]
        [⟨"A", 0, 0⟩, ⟨"B", 1, 1⟩] 60) :=
  C3_no_duplicate_adoption [(0, 0, 1, 2, 3), (50, 50, 4, 5, 6)]
    [⟨"A", 0, 0⟩, ⟨"B", 1, 1⟩] 60 (by decide)

/-! ## services/storms.py : _bearing_deg (29-36), _circ_ema_deg (39-52),
_dest_point (55-66) and the per-object motion update of
run_storm_detection (101-162) -/

/-- math.atan2 (C convention; atan2 0 0 = 0). -/
noncomputable def atan2 (y x : ℝ) : ℝ :=
  if 0 < x then Real.arctan (y / x)
  else if x < 0 ∧ 0 ≤ y then Real.arctan (y / x) + Real.pi
  else if x < 0 ∧ y < 0 then Real.arctan (y / x) - Real.pi
  else if x = 0 ∧ 0 < y then Real.pi / 2
  else if x = 0 ∧ y < 0 then -(Real.pi / 2)
  else 0

/-- Initial great-circle bearing from point 1 to point 2, in [0, 360). -/
noncomputable def _bearing_deg (lat1 lon1 lat2 lon2 : ℝ) : ℝ :=
  let phi1 := deg2rad lat1
  let phi2 := deg2rad lat2
  let dl := deg2rad (lon2 - lon1)
  let y := Real.sin dl * Real.cos phi2
  let x := Real.cos phi1 * Real.sin phi2 - Real.sin phi1 * Real.cos phi2 * Real.cos dl
  fmod (rad2deg (atan2 y x) + 360) 360

/-- Exponential smoothing for angles in degrees: blend the two unit
vectors, fall back to the new angle in the zero-vector edge case. -/
noncomputable def _circ_ema_deg (prevDeg newDeg alpha : ℝ) : ℝ :=
  let p := deg2rad prevDeg
  let n := deg2rad newDeg
  let px := Real.cos p
  let py := Real.sin p
  let nx := Real.cos n
  let ny := Real.sin n
  let x := (1 - alpha) * px + alpha * nx
  let y := (1 - alpha) * py + alpha * ny
  if |x| < 1 / 1000000000000 ∧ |y| < 1 / 1000000000000 then newDeg
  else fmod (rad2deg (atan2 y x) + 360) 360

/-- Forward great-circle projection; the returned longitude is wrapped by
(deg + 540) % 360 - 180. -/
noncomputable def _dest_point (lat lon bearingDeg distKm : ℝ) : ℝ × ℝ :=
  let R : ℝ := 6371
  let br := deg2rad bearingDeg
  let phi1 := deg2rad lat
  let lam1 := deg2rad lon
  let d := distKm / R
  let phi2 := Real.arcsin (Real.sin phi1 * Real.cos d +
    Real.cos phi1 * Real.sin d * Real.cos br)
  let lam2 := lam1 + atan2 (Real.sin br * Real.sin d * Real.cos phi1)
    (Real.cos d - Real.sin phi1 * Real.sin phi2)
  (rad2deg phi2, fmod (rad2deg lam2 + 540) 360 - 180)

/-- DT_MIN_CLAMP (minutes). -/
def DT_MIN_CLAMP : ℝ := 5

/-- DT_MAX_CLAMP (minutes). -/
def DT_MAX_CLAMP : ℝ := 120

/-- EMA_ALPHA (new contribution). -/
noncomputable def EMA_ALPHA : ℝ := 3 / 10

/-- The previous-cycle record of one tracked object: predecessor centroid
plus its smoothed motion values when present (motion.speed_kmh and
motion.bearing_deg of the persisted payload). -/
structure PrevState where
  lat : ℝ
  lon : ℝ
  prevSpeed : Option ℝ
  prevBearing : Option ℝ

/-- Result of the per-object motion estimation: effective dt, raw
displacement, smoothed speed and bearing, confidence class. -/
structure MotionOut where
  dt : ℝ
  dist_km : ℝ
  speed : Option ℝ
  bearing : ℝ
  conf : String

/-- The per-object motion update of run_storm_detection for an object
with a matched same-id predecessor: clamp dt to [5,120] when a timestamp
delta exists (dtRaw, always >= 0 in the caller), default the effective dt
to 60 otherwise, compute raw displacement/bearing/speed, reuse the
previous motion when dt sits at the low clamp (<= 5 + 1e-6), then smooth
by EMA and classify confidence.  The payload's round()-for-display steps
are presentational and not modelled. -/
noncomputable def motionUpdate (dtRaw : Option ℝ) (po : PrevState) (lat2 lon2 : ℝ) :
    MotionOut :=
  let dtc := dtRaw.map (fun x => max DT_MIN_CLAMP (min DT_MAX_CLAMP x))
  let dt := match dtc with
    | some d0 => if 0 < d0 then d0 else 60
    | none => 60
  let dist_km := haversine_km po.lat po.lon lat2 lon2
  let bearing0 := _bearing_deg po.lat po.lon lat2 lon2
  let speed0 : Option ℝ := if 0 < dt then some (dist_km / (dt / 60)) else none
  let sb1 : Option ℝ × ℝ :=
    match dtc, po.prevSpeed, po.prevBearing with
    | some d0, some ps, some pb =>
      if d0 ≤ DT_MIN_CLAMP + 1 / 1000000 then (some ps, pb) else (speed0, bearing0)
    | _, _, _ => (speed0, bearing0)
  let speed2 : Option ℝ :=
    match po.prevSpeed, sb1.1 with
    | some ps, some s => some ((1 - EMA_ALPHA) * ps + EMA_ALPHA * s)
    | _, s => s
  let bearing2 : ℝ :=
    match po.prevBearing with
    | some pb => _circ_ema_deg pb sb1.2 EMA_ALPHA
    | none => sb1.2
  let conf : String :=
    if dist_km ≤ 30 ∧ 15 ≤ dt ∧ dt ≤ 90 then "high"
    else if dist_km ≤ 60 ∧ 10 ≤ dt ∧ dt ≤ 110 then "med"
    else "low"
  { dt := dt, dist_km := dist_km, speed := speed2, bearing := bearing2, conf := conf }

/-- Modelled from the spec wording of claim C7: the three-way confidence
classification from raw displacement and clamped elapsed time. -/
noncomputable def specConfidence (distKm dt : ℝ) : String :=
  if distKm ≤ 30 ∧ 15 ≤ dt ∧ dt ≤ 90 then "high"
  else if distKm ≤ 60 ∧ 10 ≤ dt ∧ dt ≤ 110 then "med"
  else "low"

theorem fmod_eq_self {α : Type} [LinearOrderedField α] [FloorRing α] {x m : α}
    (hm : 0 < m) (h0 : 0 ≤ x) (h1 : x < m) : fmod x m = x := by
  unfold fmod
  have hz : ⌊x / m⌋ = 0 := by
    rw [Int.floor_eq_zero_iff]
    constructor
    · exact div_nonneg h0 hm.le
    · rwa [div_lt_one hm]
  rw [hz]
  push_cast
  ring

theorem fmod_add_right {α : Type} [LinearOrderedField α] [FloorRing α] (x : α) {m : α}
    (hm : m ≠ 0) : fmod (x + m) m = fmod x m := by
  unfold fmod
  have h1 : (x + m) / m = x / m + 1 := by
    field_simp
  rw [h1, Int.floor_add_one]
  push_cast
  ring

theorem atan2_zero_nonneg {x : ℝ} (hx : 0 ≤ x) : atan2 0 x = 0 := by
  unfold atan2
  rcases eq_or_lt_of_le hx with heq | hlt
  · simp [← heq]
  · rw [if_pos hlt, zero_div, Real.arctan_zero]

theorem rad2deg_deg2rad (x : ℝ) : rad2deg (deg2rad x) = x := by
  unfold rad2deg deg2rad
  field_simp

/-- Amended claim C5: projecting forward by distance 0 returns the start
point exactly, for every in-range latitude (|lat| <= 90) and every
longitude in the codebase's normalized range [-180, 180). -/
theorem C5_dest_point_zero (lat lon bearing : ℝ)
    (hlat1 : -90 ≤ lat) (hlat2 : lat ≤ 90)
    (hlon1 : -180 ≤ lon) (hlon2 : lon < 180) :
    _dest_point lat lon bearing 0 = (lat, lon) := by
  have hc : (0 : ℝ) < Real.pi / 180 := by positivity
  have hphi1 : -(Real.pi / 2) ≤ deg2rad lat := by
    have := mul_le_mul_of_nonneg_right hlat1 hc.le
    unfold deg2rad
    nlinarith
  have hphi2 : deg2rad lat ≤ Real.pi / 2 := by
    have := mul_le_mul_of_nonneg_right hlat2 hc.le
    unfold deg2rad
    nlinarith
  simp only [_dest_point]
  have hd : (0 : ℝ) / 6371 = 0 := zero_div 6371
  rw [hd, Real.cos_zero, Real.sin_zero]
  have harg : Real.sin (deg2rad lat) * 1 + Real.cos (deg2rad lat) * 0 * Real.cos (deg2rad bearing)
      = Real.sin (deg2rad lat) := by ring
  rw [harg, Real.arcsin_sin hphi1 hphi2]
  have hnum : Real.sin (deg2rad bearing) * 0 * Real.cos (deg2rad lat) = 0 := by ring
  rw [hnum]
  have hden : (0 : ℝ) ≤ 1 - Real.sin (deg2rad lat) * Real.sin (deg2rad lat) := by
    nlinarith [Real.sin_sq_le_one (deg2rad lat), sq (Real.sin (deg2rad lat))]
  rw [atan2_zero_nonneg hden, add_zero, rad2deg_deg2rad, rad2deg_deg2rad]
  have hwrap : fmod (lon + 540) 360 = lon + 180 := by
    have : lon + 540 = (lon + 180) + 360 := by ring
    rw [this, fmod_add_right (lon + 180) (by norm_num)]
    exact fmod_eq_self (by norm_num) (by linarith) (by linarith)
  rw [hwrap]
  norm_num

theorem C5_dest_point_at_180 : _dest_point (0:ℝ) 180 0 0 = ((0:ℝ), (-180:ℝ)) := by
  simp only [_dest_point]
  rw [zero_div, Real.cos_zero, Real.sin_zero]
  have hz : deg2rad 0 = 0 := by simp [deg2rad]
  rw [hz, Real.sin_zero, Real.cos_zero]
  rw [show (0:ℝ) * 1 + 1 * 0 * 1 = 0 by ring, Real.arcsin_zero, Real.sin_zero]
  rw [show (0:ℝ) * 0 * 1 = 0 by ring, show (1:ℝ) - 0 * 0 = 1 by ring]
  rw [atan2_zero_nonneg zero_le_one, add_zero, rad2deg_deg2rad]
  rw [show rad2deg 0 = 0 by simp [rad2deg]]
  rw [show (180:ℝ) + 540 = 0 + 360 + 360 by ring, fmod_add_right _ (by norm_num),
    fmod_add_right _ (by norm_num), fmod_eq_self (by norm_num) le_rfl (by norm_num)]
  norm_num

/-- Counterexample to claim C5 as stated: at the perfectly legitimate
longitude 180 the zero-distance projection returns longitude -180, not
the starting longitude: the final (deg + 540) % 360 - 180 wrap maps
longitudes outside [-180, 180) to their normalized representative. -/
theorem C5_counterexample : _dest_point (0:ℝ) 180 0 0 ≠ ((0:ℝ), (180:ℝ)) := by
  rw [C5_dest_point_at_180]
  intro h
  have h2 := congrArg Prod.snd h
  norm_num at h2

/-- Witness instantiation of the amended claim C5 at a concrete point. -/
theorem C5_witness : _dest_point (10:ℝ) 20 30 0 = (10, 20) :=
  C5_dest_point_zero 10 20 30 (by norm_num) (by norm_num) (by norm_num) (by norm_num)

theorem atan2_sin_cos (p : ℝ) (h0 : 0 ≤ p) (h2 : p < 2 * Real.pi) :
    atan2 (Real.sin p) (Real.cos p) = if p ≤ Real.pi then p else p - 2 * Real.pi := by
  have hpi := Real.pi_pos
  by_cases hA : p < Real.pi / 2
  · have hcos : 0 < Real.cos p := Real.cos_pos_of_mem_Ioo ⟨by linarith, hA⟩
    rw [atan2, if_pos hcos, ← Real.tan_eq_sin_div_cos, Real.arctan_tan (by linarith) hA,
      if_pos (by linarith)]
  · by_cases hB : p = Real.pi / 2
    · subst hB
      rw [Real.cos_pi_div_two, Real.sin_pi_div_two, atan2]
      norm_num
      rw [if_pos (by linarith)]
    · have hA2 : Real.pi / 2 < p := lt_of_le_of_ne (not_lt.mp hA) (Ne.symm hB)
      by_cases hC : p < Real.pi
      · have hcos : Real.cos p < 0 :=
          Real.cos_neg_of_pi_div_two_lt_of_lt hA2 (by linarith)
        have hsin : 0 < Real.sin p := Real.sin_pos_of_pos_of_lt_pi (by linarith) hC
        rw [atan2, if_neg (by linarith), if_pos ⟨hcos, hsin.le⟩,
          ← Real.tan_eq_sin_div_cos, ← Real.tan_sub_pi,
          Real.arctan_tan (by linarith) (by linarith), if_pos hC.le]
        ring
      · by_cases hD : p = Real.pi
        · subst hD
          rw [if_pos le_rfl, Real.cos_pi, Real.sin_pi, atan2]
          rw [if_neg (by norm_num)]
          rw [if_pos (show (-1:ℝ) < 0 ∧ (0:ℝ) ≤ 0 by norm_num)]
          norm_num [Real.arctan_zero]
        · have hC2 : Real.pi < p := lt_of_le_of_ne (not_lt.mp hC) (Ne.symm hD)
          by_cases hE : p < 3 * Real.pi / 2
          · have hcos : Real.cos p < 0 :=
              Real.cos_neg_of_pi_div_two_lt_of_lt (by linarith) (by linarith)
            have hsinsub := Real.sin_sub_pi p
            have hsinpos : 0 < Real.sin (p - Real.pi) :=
              Real.sin_pos_of_pos_of_lt_pi (by linarith) (by linarith)
            have hsin : Real.sin p < 0 := by
              rw [Real.sin_sub_pi] at hsinpos
              linarith
            rw [atan2, if_neg (by linarith), if_neg (by rintro ⟨-, hy⟩; linarith),
              if_pos ⟨hcos, hsin⟩, ← Real.tan_eq_sin_div_cos, ← Real.tan_sub_pi,
              Real.arctan_tan (by linarith) (by linarith), if_neg (by linarith)]
            ring
          · by_cases hF : p = 3 * Real.pi / 2
            · subst hF
              have hc32 : Real.cos (3 * Real.pi / 2) = 0 := by
                rw [show (3:ℝ) * Real.pi / 2 = Real.pi + Real.pi / 2 by ring, Real.cos_add]
                simp
              have hs32 : Real.sin (3 * Real.pi / 2) = -1 := by
                rw [show (3:ℝ) * Real.pi / 2 = Real.pi + Real.pi / 2 by ring, Real.sin_add]
                simp
              rw [hc32, hs32, atan2]
              norm_num
              rw [if_neg (by linarith)]
              ring
            · have hE2 : 3 * Real.pi / 2 < p := lt_of_le_of_ne (not_lt.mp hE) (Ne.symm hF)
              have hcos : 0 < Real.cos p := by
                rw [← Real.cos_sub_two_pi]
                exact Real.cos_pos_of_mem_Ioo ⟨by linarith, by linarith⟩
              have htan : Real.tan (p - 2 * Real.pi) = Real.tan p := by
                rw [show p - 2 * Real.pi = p - Real.pi - Real.pi by ring,
                  Real.tan_sub_pi, Real.tan_sub_pi]
              rw [atan2, if_pos hcos, ← Real.tan_eq_sin_div_cos, ← htan,
                Real.arctan_tan (by linarith) (by linarith), if_neg (by linarith)]

theorem rad2deg_shift (b : ℝ) : rad2deg (deg2rad b - 2 * Real.pi) = b - 360 := by
  unfold rad2deg deg2rad
  field_simp
  ring

theorem circ_ema_same (b alpha : ℝ) (h0 : 0 ≤ b) (h1 : b < 360) :
    _circ_ema_deg b b alpha = b := by
  have hpi := Real.pi_pos
  simp only [_circ_ema_deg]
  rw [show (1 - alpha) * Real.cos (deg2rad b) + alpha * Real.cos (deg2rad b)
      = Real.cos (deg2rad b) by ring]
  rw [show (1 - alpha) * Real.sin (deg2rad b) + alpha * Real.sin (deg2rad b)
      = Real.sin (deg2rad b) by ring]
  have hno : ¬(|Real.cos (deg2rad b)| < 1 / 1000000000000 ∧
      |Real.sin (deg2rad b)| < 1 / 1000000000000) := by
    rintro ⟨hx, hy⟩
    have hs := Real.sin_sq_add_cos_sq (deg2rad b)
    have hx2 : Real.cos (deg2rad b) ^ 2 < (1 / 1000000000000) ^ 2 := by
      rw [← sq_abs]
      exact pow_lt_pow_left₀ hx (abs_nonneg _) two_ne_zero
    have hy2 : Real.sin (deg2rad b) ^ 2 < (1 / 1000000000000) ^ 2 := by
      rw [← sq_abs]
      exact pow_lt_pow_left₀ hy (abs_nonneg _) two_ne_zero
    nlinarith
  rw [if_neg hno]
  have hp0 : 0 ≤ deg2rad b := by
    unfold deg2rad
    positivity
  have hp2 : deg2rad b < 2 * Real.pi := by
    unfold deg2rad
    nlinarith
  rw [atan2_sin_cos (deg2rad b) hp0 hp2]
  by_cases hmid : deg2rad b ≤ Real.pi
  · rw [if_pos hmid, rad2deg_deg2rad, fmod_add_right b (by norm_num),
      fmod_eq_self (by norm_num) h0 h1]
  · rw [if_neg hmid, rad2deg_shift,
      show b - 360 + 360 = b by ring, fmod_eq_self (by norm_num) h0 h1]

/-- Amended claim C6: the effective dt used for speed always lies in
[5, 120] minutes (the clamp, or the 60-minute default when no timestamp
delta exists); and when the raw dt is at the low clamp boundary (<= 5)
and the predecessor carries both a previous smoothed speed and bearing,
the resulting motion speed equals the previous speed verbatim, and the
resulting bearing equals the previous bearing verbatim provided that
bearing lies in [0, 360) - the range the code itself produces.  (Outside
that range the bearing is only reproduced up to 360-degree
normalization, see the counterexample.) -/
theorem C6_dt_clamp_and_reuse (dtRaw : Option ℝ) (po : PrevState) (lat2 lon2 : ℝ) :
    (5 ≤ (motionUpdate dtRaw po lat2 lon2).dt ∧ (motionUpdate dtRaw po lat2 lon2).dt ≤ 120) ∧
    (∀ d ps pb, dtRaw = some d → d ≤ 5 →
      po.prevSpeed = some ps → po.prevBearing = some pb →
      (motionUpdate dtRaw po lat2 lon2).speed = some ps ∧
      (0 ≤ pb → pb < 360 → (motionUpdate dtRaw po lat2 lon2).bearing = pb)) := by
  constructor
  · cases dtRaw with
    | none =>
      simp only [motionUpdate, Option.map_none']
      norm_num
    | some x =>
      have hpos : (0:ℝ) < max DT_MIN_CLAMP (min DT_MAX_CLAMP x) := by
        have h5 : (5:ℝ) ≤ max DT_MIN_CLAMP (min DT_MAX_CLAMP x) := by
          rw [DT_MIN_CLAMP]
          exact le_max_left 5 _
        linarith
      simp only [motionUpdate, Option.map_some', if_pos hpos]
      rw [DT_MIN_CLAMP, DT_MAX_CLAMP]
      exact ⟨le_max_left 5 _, max_le (by norm_num) (min_le_left 120 x)⟩
  · intro d ps pb hdt hd5 hps hpb
    subst hdt
    have hclamp : max DT_MIN_CLAMP (min DT_MAX_CLAMP d) = 5 := by
      rw [DT_MIN_CLAMP, DT_MAX_CLAMP, min_eq_right (by linarith), max_eq_left hd5]
    constructor
    · simp only [motionUpdate, Option.map_some', hclamp, hps, hpb]
      rw [if_pos (by rw [DT_MIN_CLAMP]; norm_num)]
      simp only [EMA_ALPHA]
      congr 1
      ring
    · intro hb0 hb1
      simp only [motionUpdate, Option.map_some', hclamp, hps, hpb]
      rw [if_pos (by rw [DT_MIN_CLAMP]; norm_num)]
      exact circ_ema_same pb EMA_ALPHA hb0 hb1

theorem circ_ema_360 : _circ_ema_deg 360 360 EMA_ALPHA = 0 := by
  simp only [_circ_ema_deg]
  have hp : deg2rad 360 = 2 * Real.pi := by unfold deg2rad; ring
  rw [hp, Real.cos_two_pi, Real.sin_two_pi]
  rw [show (1 - EMA_ALPHA) * 1 + EMA_ALPHA * 1 = (1:ℝ) by ring,
    show (1 - EMA_ALPHA) * 0 + EMA_ALPHA * 0 = (0:ℝ) by ring]
  rw [if_neg (by rintro ⟨hx, -⟩; rw [abs_one] at hx; norm_num at hx)]
  rw [atan2_zero_nonneg zero_le_one]
  rw [show rad2deg 0 = 0 by simp [rad2deg], zero_add]
  unfold fmod
  rw [div_self (by norm_num : (360:ℝ) ≠ 0), Int.floor_one]
  norm_num

/-- The counterexample predecessor for claim C6: a payload carrying the
previous smoothed bearing 360.0 (a value the code itself can emit, since
it rounds bearings with round(b, 0) and 359.7 rounds to 360.0). -/
def poC6 : PrevState := ⟨0, 0, some 10, some 360⟩

/-- Counterexample to claim C6 as stated: at the low dt clamp with a
previous bearing of 360, the resulting bearing is 0, not the previous
value 360 verbatim - the circular EMA re-normalizes the angle into
[0, 360). -/
theorem C6_counterexample :
    (motionUpdate (some 3) poC6 0 0).bearing = 0 ∧
    ¬ ((motionUpdate (some 3) poC6 0 0).bearing = 360) := by
  have hclamp : max DT_MIN_CLAMP (min DT_MAX_CLAMP 3) = 5 := by
    rw [DT_MIN_CLAMP, DT_MAX_CLAMP]
    norm_num
  have hb : (motionUpdate (some 3) poC6 0 0).bearing = 0 := by
    simp only [motionUpdate, Option.map_some', hclamp,
      show poC6.prevSpeed = some 10 from rfl, show poC6.prevBearing = some 360 from rfl]
    rw [if_pos (by rw [DT_MIN_CLAMP]; norm_num)]
    exact circ_ema_360
  exact ⟨hb, by rw [hb]; norm_num⟩

/-- The witness predecessor for claim C6: previous speed 10 km/h at
bearing 90 degrees. -/
def poW6 : PrevState := ⟨0, 0, some 10, some 90⟩

/-- Witness instantiation of the amended claim C6: dt raw 3 minutes is
clamped to 5 and the previous motion (10 km/h, 90 degrees) is reused
verbatim. -/
theorem C6_witness :
    (5 ≤ (motionUpdate (some 3) poW6 0 0).dt ∧ (motionUpdate (some 3) poW6 0 0).dt ≤ 120) ∧
    (motionUpdate (some 3) poW6 0 0).speed = some 10 ∧
    (motionUpdate (some 3) poW6 0 0).bearing = 90 := by
  have h := C6_dt_clamp_and_reuse (some 3) poW6 0 0
  have h2 := h.2 3 10 90 rfl (by norm_num) rfl rfl
  exact ⟨h.1, h2.1, h2.2 (by norm_num) (by norm_num)⟩

/-- Claim C7: the motion confidence is classified exactly as high /
med / low from the raw haversine displacement between predecessor and
current centroid and the effective dt, which is the clamped elapsed time
whenever a timestamp delta exists. -/
theorem C7_confidence (dtRaw : Option ℝ) (po : PrevState) (lat2 lon2 : ℝ) :
    (motionUpdate dtRaw po lat2 lon2).conf
      = specConfidence (haversine_km po.lat po.lon lat2 lon2)
          ((motionUpdate dtRaw po lat2 lon2).dt) ∧
    (∀ d, dtRaw = some d →
      (motionUpdate dtRaw po lat2 lon2).dt = max DT_MIN_CLAMP (min DT_MAX_CLAMP d)) := by
  constructor
  · rfl
  · intro d hdt
    subst hdt
    have hpos : (0:ℝ) < max DT_MIN_CLAMP (min DT_MAX_CLAMP d) := by
      have h5 : (5:ℝ) ≤ max DT_MIN_CLAMP (min DT_MAX_CLAMP d) := by
        rw [DT_MIN_CLAMP]
        exact le_max_left 5 _
      linarith
    simp only [motionUpdate, Option.map_some', if_pos hpos]

/-- Witness instantiation of claim C7 at a concrete matched object. -/
theorem C7_witness :
    (motionUpdate (some 50) ⟨0, 0, none, none⟩ 1 1).conf
      = specConfidence (haversine_km 0 0 1 1)
          ((motionUpdate (some 50) ⟨0, 0, none, none⟩ 1 1).dt) ∧
    (motionUpdate (some 50) ⟨0, 0, none, none⟩ 1 1).dt
      = max DT_MIN_CLAMP (min DT_MAX_CLAMP 50) :=
  ⟨(C7_confidence (some 50) ⟨0, 0, none, none⟩ 1 1).1,
   (C7_confidence (some 50) ⟨0, 0, none, none⟩ 1 1).2 50 rfl⟩

/-! ## compute/boundaries.py : compute_boundary_candidates (64-124)

The METAR dataframe is modelled by column-presence flags plus per-row
parsed cell values: a cell is none when the column's value is missing or
fails pd.to_numeric (errors="coerce" turns it into NaN).  The row stores
the value of the column the code selects ("lat" before "latitude", "lon"
before "longitude").  The u/v wind columns of lines 84-85 are read but
never used by the source, so they are not modelled. -/

/-- One row of the raw METAR dataframe, after numeric parsing. -/
structure MetarRow where
  lat : Option ℚ
  lon : Option ℚ
  temp_c : Option ℚ
  dewpoint_c : Option ℚ
  wind_dir_degrees : Option ℚ

/-- The raw METAR dataframe. -/
structure MetarDF where
  hasLat : Bool
  hasLatitude : Bool
  hasLon : Bool
  hasLongitude : Bool
  hasTempC : Bool
  hasDewpointC : Bool
  hasWindDir : Bool
  rows : List MetarRow

/-- _wrap_lon: keep longitudes in [-180, 180). -/
def wrapLon (lon : ℚ) : ℚ := fmod (lon + 180) 360 - 180

/-- A station that survived the lat/lon dropna, with wrapped longitude. -/
structure Station where
  lat : ℚ
  lon : ℚ
  temp_c : Option ℚ
  dewpoint_c : Option ℚ
  wind_dir_degrees : Option ℚ

/-- Parse and drop: stations whose lat or lon is missing/unparseable are
dropped (df.dropna(subset=["lat","lon"])); longitudes are wrapped. -/
def parseStations (rows : List MetarRow) : List Station :=
  rows.filterMap (fun r =>
    match r.lat, r.lon with
    | some la, some lo => some ⟨la, wrapLon lo, r.temp_c, r.dewpoint_c, r.wind_dir_degrees⟩
    | _, _ => none)

/-- A ranked boundary candidate. -/
structure BoundaryCandidate where
  lat : ℚ
  lon : ℚ
  score : ℝ
  kind : String

/-- A station row of the returned scored dataframe: the station plus the
per-variable score columns that were added. -/
structure ScoredStation where
  station : Station
  dewpoint_grad : Option ℝ
  temp_grad : Option ℝ
  windshift : Option ℝ

/-- Ascending stable order on indices by score (np.argsort). -/
def ascRel (s : List ℝ) (a b : ℕ) : Prop :=
  s.getD a 0 < s.getD b 0 ∨ (s.getD a 0 = s.getD b 0 ∧ a ≤ b)

noncomputable instance ascRelDecidable (s : List ℝ) : DecidableRel (ascRel s) :=
  fun a b => by unfold ascRel; infer_instance

/-- np.argsort(score)[::-1]: sort ascending then reverse. -/
noncomputable def argsortDesc (s : List ℝ) : List ℕ :=
  (List.insertionSort (ascRel s) (List.range s.length)).reverse

/-- The per-variable candidate pick: walk the top_n highest-score indices
and keep stations with finite positive score (our reals are always
finite, so the isfinite conjunct is identically true). -/
noncomputable def topCandidates (stations : List Station) (score : List ℝ)
    (top_n : ℕ) (kind : String) : List BoundaryCandidate :=
  ((argsortDesc score).take top_n).filterMap (fun i =>
    match stations.get? i with
    | some st =>
      if 0 < score.getD i 0 then some ⟨st.lat, st.lon, score.getD i 0, kind⟩ else none
    | none => none)

/-- The Except plumbing of the three scorer calls (lines 90-120): the
optional score columns are computed in source order (dewpoint, then
temperature, then wind direction) and the first error raised by a
tree.query call propagates out. -/
noncomputable def scoreColumns (df : MetarDF) (stations : List Station) :
    Except String (Option (List ℝ) × Option (List ℝ) × Option (List ℝ)) :=
  match (if df.hasDewpointC then
      Except.map some (_local_gradient_score (stations.map (fun st => (st.lon, st.lat)))
        (stations.map (fun st => st.dewpoint_c)) 6)
    else Except.ok none) with
  | Except.error e => Except.error e
  | Except.ok dpScore =>
    match (if df.hasTempC then
        Except.map some (_local_gradient_score (stations.map (fun st => (st.lon, st.lat)))
          (stations.map (fun st => st.temp_c)) 6)
      else Except.ok none) with
    | Except.error e => Except.error e
    | Except.ok tScore =>
      match (if df.hasWindDir then
          Except.map some (_wind_shift_score (stations.map (fun st => (st.lon, st.lat)))
            (stations.map (fun st => st.wind_dir_degrees)) 6)
        else Except.ok none) with
      | Except.error e => Except.error e
      | Except.ok wScore => Except.ok (dpScore, tScore, wScore)

/-- The pure tail of compute_boundary_candidates once every scorer call
has returned: per-variable candidate picks, the scored station table,
final sort and truncation. -/
noncomputable def boundaryResult (stations : List Station) (top_n : ℕ)
    (dpScore tScore wScore : Option (List ℝ)) :
    List ScoredStation × List BoundaryCandidate :=
  let cands :=
    (match dpScore with
     | some s => topCandidates stations s top_n "dewpoint"
     | none => []) ++
    (match tScore with
     | some s => topCandidates stations s top_n "temp"
     | none => []) ++
    (match wScore with
     | some s => topCandidates stations s top_n "windshift"
     | none => [])
  let scored := (enumFromN 0 stations).map (fun jp =>
    { station := jp.2,
      dewpoint_grad := dpScore.map (fun s => s.getD jp.1 0),
      temp_grad := tScore.map (fun s => s.getD jp.1 0),
      windshift := wScore.map (fun s => s.getD jp.1 0) : ScoredStation })
  (scored, (List.mergeSort cands (fun a b => decide (b.score ≤ a.score))).take top_n)

/-- compute_boundary_candidates: station-level scores and top boundary
candidates; a data-shape error when no latitude or longitude column
exists under either accepted name, and a propagated tree.query error
(ValueError or IndexError) when a scorer call raises. -/
noncomputable def compute_boundary_candidates (df : MetarDF) (top_n : ℕ) :
    Except String (List ScoredStation × List BoundaryCandidate) :=
  if (¬(df.hasLat ∨ df.hasLatitude)) ∨ (¬(df.hasLon ∨ df.hasLongitude)) then
    Except.error "METAR dataframe missing lat/lon."
  else
    match scoreColumns df (parseStations df.rows) with
    | Except.error e => Except.error e
    | Except.ok scores =>
      Except.ok (boundaryResult (parseStations df.rows) top_n scores.1 scores.2.1 scores.2.2)

theorem enumFromN_length {β : Type} : ∀ (l : List β) (n : ℕ),
    (enumFromN n l).length = l.length := by
  intro l
  induction l with
  | nil => intro n; rfl
  | cons x xs ih =>
    intro n
    rw [enumFromN, List.length_cons, List.length_cons, ih]

theorem parseStations_length : ∀ (rows : List MetarRow),
    (parseStations rows).length
      = rows.countP (fun r => r.lat.isSome && r.lon.isSome) := by
  intro rows
  induction rows with
  | nil => rfl
  | cons r rest ih =>
    rw [parseStations, List.filterMap_cons, List.countP_cons]
    cases hla : r.lat with
    | none =>
      simp only [hla, Option.isSome_none, Bool.false_and, if_neg]
      rw [← parseStations, ih]
      simp
    | some la =>
      cases hlo : r.lon with
      | none =>
        simp only [hla, hlo, Option.isSome_none, Option.isSome_some, Bool.and_false]
        rw [← parseStations, ih]
        simp
      | some lo =>
        simp only [hla, hlo, Option.isSome_some, Bool.and_true]
        rw [List.length_cons, ← parseStations, ih]
        simp

theorem lgs_ok (xy : List (ℚ × ℚ)) (val : List (Option ℚ)) (k : ℕ)
    (h : 2 ≤ min k xy.length) :
    _local_gradient_score xy val k = Except.ok (gradScoresLoop xy val k) := by
  rw [_local_gradient_score, if_neg (by omega), if_neg (by omega)]

theorem wss_ok (xy : List (ℚ × ℚ)) (wd : List (Option ℚ)) (k : ℕ)
    (h : 2 ≤ min k xy.length) :
    _wind_shift_score xy wd k = Except.ok (windShiftScoresLoop xy wd k) := by
  rw [_wind_shift_score, if_neg (by omega), if_neg (by omega)]

theorem lgs_err (xy : List (ℚ × ℚ)) (val : List (Option ℚ)) (k : ℕ)
    (h : min k xy.length ≤ 1) :
    ∃ e, _local_gradient_score xy val k = Except.error e := by
  rw [_local_gradient_score]
  by_cases h0 : min k xy.length = 0
  · exact ⟨_, by rw [if_pos h0]⟩
  · exact ⟨_, by rw [if_neg h0, if_pos (by omega)]⟩

theorem wss_err (xy : List (ℚ × ℚ)) (wd : List (Option ℚ)) (k : ℕ)
    (h : min k xy.length ≤ 1) :
    ∃ e, _wind_shift_score xy wd k = Except.error e := by
  rw [_wind_shift_score]
  by_cases h0 : min k xy.length = 0
  · exact ⟨_, by rw [if_pos h0]⟩
  · exact ⟨_, by rw [if_neg h0, if_pos (by omega)]⟩

theorem scoreColumns_ok (df : MetarDF) (stations : List Station)
    (h : (¬df.hasTempC ∧ ¬df.hasDewpointC ∧ ¬df.hasWindDir) ∨ 2 ≤ stations.length) :
    scoreColumns df stations = Except.ok
      ((if df.hasDewpointC then
          some (gradScoresLoop (stations.map (fun st => (st.lon, st.lat)))
            (stations.map (fun st => st.dewpoint_c)) 6) else none),
       (if df.hasTempC then
          some (gradScoresLoop (stations.map (fun st => (st.lon, st.lat)))
            (stations.map (fun st => st.temp_c)) 6) else none),
       (if df.hasWindDir then
          some (windShiftScoresLoop (stations.map (fun st => (st.lon, st.lat)))
            (stations.map (fun st => st.wind_dir_degrees)) 6) else none)) := by
  have hmin : (df.hasTempC ∨ df.hasDewpointC ∨ df.hasWindDir) →
      2 ≤ min 6 (stations.map (fun st => ((st.lon, st.lat) : ℚ × ℚ))).length := by
    intro hv
    rcases h with ⟨hnt, hnd, hnw⟩ | hn
    · rcases hv with hx | hx | hx
      · exact absurd hx hnt
      · exact absurd hx hnd
      · exact absurd hx hnw
    · rw [List.length_map]
      omega
  have hdp : (if df.hasDewpointC then
        Except.map some (_local_gradient_score (stations.map (fun st => (st.lon, st.lat)))
          (stations.map (fun st => st.dewpoint_c)) 6)
      else Except.ok none) = Except.ok
        (if df.hasDewpointC then
          some (gradScoresLoop (stations.map (fun st => (st.lon, st.lat)))
            (stations.map (fun st => st.dewpoint_c)) 6) else none) := by
    by_cases hd : df.hasDewpointC
    · rw [if_pos hd, if_pos hd, lgs_ok _ _ _ (hmin (Or.inr (Or.inl hd)))]
      rfl
    · rw [if_neg hd, if_neg hd]
  have ht : (if df.hasTempC then
        Except.map some (_local_gradient_score (stations.map (fun st => (st.lon, st.lat)))
          (stations.map (fun st => st.temp_c)) 6)
      else Except.ok none) = Except.ok
        (if df.hasTempC then
          some (gradScoresLoop (stations.map (fun st => (st.lon, st.lat)))
            (stations.map (fun st => st.temp_c)) 6) else none) := by
    by_cases hc : df.hasTempC
    · rw [if_pos hc, if_pos hc, lgs_ok _ _ _ (hmin (Or.inl hc))]
      rfl
    · rw [if_neg hc, if_neg hc]
  have hw : (if df.hasWindDir then
        Except.map some (_wind_shift_score (stations.map (fun st => (st.lon, st.lat)))
          (stations.map (fun st => st.wind_dir_degrees)) 6)
      else Except.ok none) = Except.ok
        (if df.hasWindDir then
          some (windShiftScoresLoop (stations.map (fun st => (st.lon, st.lat)))
            (stations.map (fun st => st.wind_dir_degrees)) 6) else none) := by
    by_cases hc : df.hasWindDir
    · rw [if_pos hc, if_pos hc, wss_ok _ _ _ (hmin (Or.inr (Or.inr hc)))]
      rfl
    · rw [if_neg hc, if_neg hc]
  rw [scoreColumns, hdp, ht, hw]

theorem scoreColumns_err (df : MetarDF) (stations : List Station)
    (hv : df.hasTempC ∨ df.hasDewpointC ∨ df.hasWindDir)
    (hn : stations.length ≤ 1) :
    ∃ e, scoreColumns df stations = Except.error e := by
  have hlen : (stations.map (fun st => ((st.lon, st.lat) : ℚ × ℚ))).length ≤ 1 := by
    rw [List.length_map]
    exact hn
  by_cases hd : df.hasDewpointC
  · obtain ⟨e, he⟩ := lgs_err (stations.map (fun st => (st.lon, st.lat)))
      (stations.map (fun st => st.dewpoint_c)) 6 (by omega)
    refine ⟨e, ?_⟩
    rw [scoreColumns, if_pos hd, he]
    rfl
  · by_cases hc : df.hasTempC
    · obtain ⟨e, he⟩ := lgs_err (stations.map (fun st => (st.lon, st.lat)))
        (stations.map (fun st => st.temp_c)) 6 (by omega)
      refine ⟨e, ?_⟩
      rw [scoreColumns, if_neg hd, if_pos hc, he]
      rfl
    · have hwd : df.hasWindDir := by
        rcases hv with hx | hx | hx
        · exact absurd hx hc
        · exact absurd hx hd
        · exact hx
      obtain ⟨e, he⟩ := wss_err (stations.map (fun st => (st.lon, st.lat)))
        (stations.map (fun st => st.wind_dir_degrees)) 6 (by omega)
      refine ⟨e, ?_⟩
      rw [scoreColumns, if_neg hd, if_neg hc, if_pos hwd, he]
      rfl

theorem boundaryResult_fst_length (stations : List Station) (top_n : ℕ)
    (a b c : Option (List ℝ)) :
    (boundaryResult stations top_n a b c).1.length = stations.length := by
  simp only [boundaryResult]
  rw [List.length_map, enumFromN_length]

/-- Amended claim C8: with a latitude or longitude column missing (under
both accepted names) the call fails with the data-shape error; with both
present it succeeds if and only if either no variable column (temp_c,
dewpoint_c, wind_dir_degrees) exists, or at least two rows have
parseable lat and lon — with a variable column and fewer than two
surviving stations the scipy query raises (ValueError for an empty point
set, IndexError via the k = 1 squeeze for a single point) and the call
errors.  On success the returned station table keeps exactly the rows
whose latitude and longitude parse. -/
theorem C8_error_behavior (df : MetarDF) (top_n : ℕ) :
    ((∃ v, compute_boundary_candidates df top_n = Except.ok v) ↔
      (((df.hasLat ∨ df.hasLatitude) ∧ (df.hasLon ∨ df.hasLongitude)) ∧
       ((¬df.hasTempC ∧ ¬df.hasDewpointC ∧ ¬df.hasWindDir) ∨
        2 ≤ df.rows.countP (fun r => r.lat.isSome && r.lon.isSome)))) ∧
    (∀ v, compute_boundary_candidates df top_n = Except.ok v →
      v.1.length = df.rows.countP (fun r => r.lat.isSome && r.lon.isSome)) := by
  by_cases hcol : (df.hasLat ∨ df.hasLatitude) ∧ (df.hasLon ∨ df.hasLongitude)
  · by_cases hsc : (¬df.hasTempC ∧ ¬df.hasDewpointC ∧ ¬df.hasWindDir) ∨
        2 ≤ df.rows.countP (fun r => r.lat.isSome && r.lon.isSome)
    · have hn : ((¬df.hasTempC ∧ ¬df.hasDewpointC ∧ ¬df.hasWindDir) ∨
          2 ≤ (parseStations df.rows).length) := by
        rcases hsc with h | h
        · exact Or.inl h
        · right
          rw [parseStations_length]
          exact h
      have hok : compute_boundary_candidates df top_n
          = Except.ok (boundaryResult (parseStations df.rows) top_n
              (if df.hasDewpointC then
                some (gradScoresLoop ((parseStations df.rows).map (fun st => (st.lon, st.lat)))
                  ((parseStations df.rows).map (fun st => st.dewpoint_c)) 6) else none)
              (if df.hasTempC then
                some (gradScoresLoop ((parseStations df.rows).map (fun st => (st.lon, st.lat)))
                  ((parseStations df.rows).map (fun st => st.temp_c)) 6) else none)
              (if df.hasWindDir then
                some (windShiftScoresLoop ((parseStations df.rows).map (fun st => (st.lon, st.lat)))
                  ((parseStations df.rows).map (fun st => st.wind_dir_degrees)) 6) else none)) := by
        rw [compute_boundary_candidates, if_neg (by push_neg; exact hcol),
          scoreColumns_ok df (parseStations df.rows) hn]
      constructor
      · exact ⟨fun _ => ⟨hcol, hsc⟩, fun _ => ⟨_, hok⟩⟩
      · intro v hv
        rw [hok] at hv
        obtain rfl := (Except.ok.inj hv).symm
        rw [boundaryResult_fst_length, parseStations_length]
    · have hA : df.hasTempC ∨ df.hasDewpointC ∨ df.hasWindDir := by
        by_contra hno
        push_neg at hno
        exact hsc (Or.inl hno)
      have hB : (parseStations df.rows).length ≤ 1 := by
        rw [parseStations_length]
        by_contra hgt
        push_neg at hgt
        exact hsc (Or.inr hgt)
      obtain ⟨e, he⟩ := scoreColumns_err df (parseStations df.rows) hA hB
      have herr : compute_boundary_candidates df top_n = Except.error e := by
        rw [compute_boundary_candidates, if_neg (by push_neg; exact hcol), he]
      constructor
      · constructor
        · rintro ⟨v, hv⟩
          rw [herr] at hv
          exact absurd hv (by simp)
        · intro hc
          exact absurd hc.2 hsc
      · intro v hv
        rw [herr] at hv
        exact absurd hv (by simp)
  · rcases not_and_or.mp hcol with h | h
    · have herr : compute_boundary_candidates df top_n
          = Except.error "METAR dataframe missing lat/lon." := by
        rw [compute_boundary_candidates, if_pos (Or.inl h)]
      constructor
      · constructor
        · rintro ⟨v, hv⟩
          rw [herr] at hv
          exact absurd hv (by simp)
        · intro hc
          exact absurd hc.1.1 h
      · intro v hv
        rw [herr] at hv
        exact absurd hv (by simp)
    · have herr : compute_boundary_candidates df top_n
          = Except.error "METAR dataframe missing lat/lon." := by
        rw [compute_boundary_candidates, if_pos (Or.inr h)]
      constructor
      · constructor
        · rintro ⟨v, hv⟩
          rw [herr] at hv
          exact absurd hv (by simp)
        · intro hc
          exact absurd hc.1.2 h
      · intro v hv
        rw [herr] at hv
        exact absurd hv (by simp)

/-- Counterexample dataframe for claim C8: lat and lon columns present, a
temperature column, and exactly one row whose lat and lon parse. -/
def dfC8 : MetarDF :=
  { hasLat := true, hasLatitude := false, hasLon := true, hasLongitude := false,
    hasTempC := true, hasDewpointC := false, hasWindDir := false,
    rows := [⟨some 0, some 0, some 20, none, none⟩] }

/-- Counterexample to claim C8 as stated: both coordinate columns are
present, yet the call fails — with a single surviving station scipy
squeezes the k = 1 query output to 1-D and idxs[i, 1:] raises IndexError
— so errors are not confined to the missing-column case. -/
theorem C8_counterexample :
    ((dfC8.hasLat ∨ dfC8.hasLatitude) ∧ (dfC8.hasLon ∨ dfC8.hasLongitude)) ∧
    compute_boundary_candidates dfC8 8
      = Except.error "IndexError: too many indices for array" :=
  ⟨⟨Or.inl rfl, Or.inl rfl⟩, rfl⟩

/-- Witness dataframe for claim C8: lat and lon columns present (under
the primary names), no variable columns, no rows. -/
def dfW8 : MetarDF :=
  { hasLat := true, hasLatitude := false, hasLon := true, hasLongitude := false,
    hasTempC := false, hasDewpointC := false, hasWindDir := false, rows := [] }

/-- Witness instantiation of the amended claim C8: on the concrete
dataframe the call succeeds and the scored table length equals the
parseable-row count. -/
theorem C8_witness :
    ((∃ v, compute_boundary_candidates dfW8 8 = Except.ok v) ↔
      (((dfW8.hasLat ∨ dfW8.hasLatitude) ∧ (dfW8.hasLon ∨ dfW8.hasLongitude)) ∧
       ((¬dfW8.hasTempC ∧ ¬dfW8.hasDewpointC ∧ ¬dfW8.hasWindDir) ∨
        2 ≤ dfW8.rows.countP (fun r => r.lat.isSome && r.lon.isSome)))) ∧
    (([], []) : List ScoredStation × List BoundaryCandidate).1.length
      = dfW8.rows.countP (fun r => r.lat.isSome && r.lon.isSome) :=
  ⟨(C8_error_behavior dfW8 8).1,
   (C8_error_behavior dfW8 8).2 ([], []) (by
     rw [compute_boundary_candidates, if_neg (by simp [dfW8])]
     rw [show scoreColumns dfW8 (parseStations dfW8.rows)
       = Except.ok (none, none, none) from rfl]
     simp only [boundaryResult, dfW8, parseStations, List.filterMap_nil, enumFromN,
       List.map_nil, List.append_nil, List.nil_append, List.mergeSort_nil,
       List.take_nil])⟩

/-! ## compute/impact.py : point_to_segment_km (15-38) and impact_hits (40-83)

impact.py carries its own haversine_km identical to compute/storms.py's;
the one definition above serves both.  Python round() is banker's
rounding; on exact reals it is halfEvenZ below. -/

/-- Python round to integer: nearest, ties to even. -/
noncomputable def halfEvenZ (y : ℝ) : ℤ :=
  if Int.fract y < 1 / 2 then ⌊y⌋
  else if 1 / 2 < Int.fract y then ⌊y⌋ + 1
  else if Even ⌊y⌋ then ⌊y⌋ else ⌊y⌋ + 1

/-- Python round(x, 1). -/
noncomputable def pyRound1 (x : ℝ) : ℝ := (halfEvenZ (10 * x) : ℤ) / 10

/-- Distance from point (px, py) to the segment (x1,y1)-(x2,y2) in km via
a local equirectangular projection about the mean latitude. -/
noncomputable def point_to_segment_km (px py x1 y1 x2 y2 : ℝ) : ℝ :=
  let lat0 := deg2rad ((py + y1 + y2) / 3)
  let kx := 111 * Real.cos lat0
  let ky : ℝ := 111
  let Px := px * kx
  let Py := py * ky
  let Ax := x1 * kx
  let Ay := y1 * ky
  let Bx := x2 * kx
  let By := y2 * ky
  let vx := Bx - Ax
  let vy := By - Ay
  let wx := Px - Ax
  let wy := Py - Ay
  let vv := vx * vx + vy * vy
  if vv ≤ 1 / 1000000000 then
    Real.sqrt ((Px - Ax) * (Px - Ax) + (Py - Ay) * (Py - Ay))
  else
    let t := max 0 (min 1 ((wx * vx + wy * vy) / vv))
    let projx := Ax + t * vx
    let projy := Ay + t * vy
    Real.sqrt ((Px - projx) * (Px - projx) + (Py - projy) * (Py - projy))

/-- The squared length of the projected segment (the vv term of
point_to_segment_km, same lets). -/
noncomputable def segVV (py y1 y2 x1 x2 : ℝ) : ℝ :=
  let lat0 := deg2rad ((py + y1 + y2) / 3)
  let kx := 111 * Real.cos lat0
  let ky : ℝ := 111
  let vx := x2 * kx - x1 * kx
  let vy := y2 * ky - y1 * ky
  vx * vx + vy * vy

/-- A named point target. -/
structure ImpTarget where
  name : String
  lat : Option ℝ
  lon : Option ℝ

/-- A tracked storm as consumed by impact_hits: optional fields mirror
the duck-typed payload dict (missing keys / None values are none;
forecast_60min stores (lat, lon)). -/
structure ImpStorm where
  id : String
  lat : Option ℝ
  lon : Option ℝ
  forecast_60min : Option (ℝ × ℝ)
  motionSpeed : Option ℝ
  motionBearing : Option ℝ
  max_composite : Option ℝ

/-- One impact hit. -/
structure ImpactHit where
  storm_id : String
  target : String
  dist_km : ℝ
  eta_min : Option ℝ
  max_composite : Option ℝ
  speed_kmh : Option ℝ
  bearing_deg : Option ℝ

/-- impact_hits: for each (storm, target) with usable geometry, the
distance from the target to the current-to-forecast segment; targets
within radius_km produce a hit; hits sorted by (dist_km, -max_composite).
The Python truthiness collapse speed or None maps speed 0 to none. -/
noncomputable def impact_hits (storms : List ImpStorm) (targets : List ImpTarget)
    (radius_km : ℝ) : List ImpactHit :=
  let hits := storms.flatMap (fun s =>
    match s.lat, s.lon, s.forecast_60min with
    | some lat0, some lon0, some f =>
      targets.filterMap (fun t =>
        match t.lat, t.lon with
        | some tlat, some tlon =>
          let d := point_to_segment_km tlon tlat lon0 lat0 f.2 f.1
          if d ≤ radius_km then
            let speed : Option ℝ := match s.motionSpeed with
              | some v => if v = 0 then none else some v
              | none => none
            let eta : Option ℝ := match speed with
              | some v =>
                if 1 / 1000000 < v then
                  some (haversine_km lat0 lon0 tlat tlon / v * 60)
                else none
              | none => none
            some { storm_id := s.id, target := t.name, dist_km := pyRound1 d,
                   eta_min := eta.map (fun e => (halfEvenZ e : ℝ)),
                   max_composite := s.max_composite, speed_kmh := speed,
                   bearing_deg := s.motionBearing }
          else none
        | _, _ => none)
    | _, _, _ => [])
  List.mergeSort hits (fun a b => decide (a.dist_km < b.dist_km ∨
    (a.dist_km = b.dist_km ∧ b.max_composite.getD 0 ≤ a.max_composite.getD 0)))

theorem pyRound1_zero : pyRound1 0 = 0 := by
  unfold pyRound1 halfEvenZ
  rw [mul_zero]
  rw [if_pos (by rw [Int.fract_zero]; norm_num)]
  simp

theorem point_to_segment_on (px py x1 y1 x2 y2 s : ℝ)
    (hs0 : 0 ≤ s) (hs1 : s ≤ 1)
    (hx : px = x1 + s * (x2 - x1)) (hy : py = y1 + s * (y2 - y1))
    (hvv : 1 / 1000000000 < segVV py y1 y2 x1 x2) :
    point_to_segment_km px py x1 y1 x2 y2 = 0 := by
  simp only [segVV] at hvv
  simp only [point_to_segment_km]
  rw [if_neg (not_le.mpr hvv)]
  have hvvne : (x2 * (111 * Real.cos (deg2rad ((py + y1 + y2) / 3)))
      - x1 * (111 * Real.cos (deg2rad ((py + y1 + y2) / 3)))) *
      (x2 * (111 * Real.cos (deg2rad ((py + y1 + y2) / 3)))
      - x1 * (111 * Real.cos (deg2rad ((py + y1 + y2) / 3)))) +
      (y2 * 111 - y1 * 111) * (y2 * 111 - y1 * 111) ≠ 0 := by
    intro h0
    rw [h0] at hvv
    norm_num at hvv
  set kx := 111 * Real.cos (deg2rad ((py + y1 + y2) / 3)) with hkx
  have hdot : (px * kx - x1 * kx) * (x2 * kx - x1 * kx) +
      (py * 111 - y1 * 111) * (y2 * 111 - y1 * 111)
      = s * ((x2 * kx - x1 * kx) * (x2 * kx - x1 * kx) +
        (y2 * 111 - y1 * 111) * (y2 * 111 - y1 * 111)) := by
    rw [hx, hy]
    ring
  rw [hdot, mul_div_assoc, div_self hvvne, mul_one, min_eq_right hs1, max_eq_right hs0]
  rw [show px * kx - (x1 * kx + s * (x2 * kx - x1 * kx)) = 0 by rw [hx]; ring]
  rw [show py * 111 - (y1 * 111 + s * (y2 * 111 - y1 * 111)) = 0 by rw [hy]; ring]
  rw [mul_zero, add_zero, Real.sqrt_zero]

theorem impact_hits_sorted (storms : List ImpStorm) (targets : List ImpTarget)
    (radius_km : ℝ) :
    List.Pairwise (fun a b => a.dist_km < b.dist_km ∨
      (a.dist_km = b.dist_km ∧ b.max_composite.getD 0 ≤ a.max_composite.getD 0))
      (impact_hits storms targets radius_km) := by
  unfold impact_hits
  refine List.Pairwise.imp (fun h => of_decide_eq_true h) (List.sorted_mergeSort ?_ ?_ _)
  · intro a b c hab hbc
    rw [decide_eq_true_eq] at hab hbc ⊢
    rcases hab with h1 | ⟨h1, h1'⟩ <;> rcases hbc with h2 | ⟨h2, h2'⟩
    · exact Or.inl (h1.trans h2)
    · exact Or.inl (h2 ▸ h1)
    · exact Or.inl (h1 ▸ h2)
    · exact Or.inr ⟨h1.trans h2, h2'.trans h1'⟩
  · intro a b
    rw [Bool.or_eq_true, decide_eq_true_eq, decide_eq_true_eq]
    rcases lt_trichotomy a.dist_km b.dist_km with h | h | h
    · exact Or.inl (Or.inl h)
    · rcases le_total (b.max_composite.getD 0) (a.max_composite.getD 0) with hm | hm
      · exact Or.inl (Or.inr ⟨h, hm⟩)
      · exact Or.inr (Or.inr ⟨h.symm, hm⟩)
    · exact Or.inr (Or.inl h)

theorem impact_hits_on_segment (sid tname : String)
    (lat0 lon0 flat flon tlat tlon radius s : ℝ) (mc : Option ℝ)
    (hs0 : 0 ≤ s) (hs1 : s ≤ 1)
    (hx : tlon = lon0 + s * (flon - lon0)) (hy : tlat = lat0 + s * (flat - lat0))
    (hvv : 1 / 1000000000 < segVV tlat lat0 flat lon0 flon)
    (hrad : 0 ≤ radius) :
    impact_hits [⟨sid, some lat0, some lon0, some (flat, flon), none, none, mc⟩]
      [⟨tname, some tlat, some tlon⟩] radius
      = [⟨sid, tname, 0, none, mc, none, none⟩] := by
  have hd : point_to_segment_km tlon tlat lon0 lat0 flon flat = 0 :=
    point_to_segment_on tlon tlat lon0 lat0 flon flat s hs0 hs1 hx hy hvv
  simp only [impact_hits, List.flatMap_cons, List.flatMap_nil, List.append_nil,
    List.filterMap_cons, List.filterMap_nil]
  rw [hd, if_pos hrad, pyRound1_zero]
  simp

/-- Counterexample storm for claim C9: current position (0,0), forecast
position (0, 2e-9 degrees east) - a degenerate, tiny but non-zero
segment whose projected squared length is below the 1e-9 km^2 guard. -/
noncomputable def stormC9 : ImpStorm := ⟨"S1", some 0, some 0, some (0, 2/1000000000), none, none, some 5⟩

/-- Counterexample target for claim C9: exactly the midpoint of the
storm's current-to-forecast segment. -/
noncomputable def targetC9 : ImpTarget := ⟨"T", some 0, some (1/1000000000)⟩

/-- Counterexample to claim C9 as stated: the target lies exactly on the
current-to-forecast segment (first conjunct: its longitude is the s=1/2
point of the segment, all latitudes 0) and the radius 1e-8 km is
positive, yet impact_hits emits no hit: in the degenerate-segment branch
the code returns the point-to-endpoint distance 1.11e-7 km, which
exceeds the radius. -/
theorem C9_counterexample :
    ((1:ℝ)/1000000000 = 0 + (1/2) * (2/1000000000 - 0)) ∧
    ((0:ℝ) < 1/100000000) ∧
    impact_hits [stormC9] [targetC9] (1/100000000) = [] := by
  refine ⟨by norm_num, by norm_num, ?_⟩
  have hd : point_to_segment_km (1/1000000000) 0 0 0 (2/1000000000) 0
      = 111/1000000000 := by
    simp only [point_to_segment_km]
    have hlat : deg2rad ((0 + 0 + 0) / 3) = 0 := by
      norm_num [deg2rad]
    rw [hlat, Real.cos_zero]
    rw [if_pos (by norm_num)]
    rw [show ((1:ℝ)/1000000000 * (111 * 1) - 0 * (111 * 1)) *
        ((1:ℝ)/1000000000 * (111 * 1) - 0 * (111 * 1)) +
        ((0:ℝ) * 111 - 0 * 111) * ((0:ℝ) * 111 - 0 * 111)
        = (111/1000000000)^2 by ring]
    exact Real.sqrt_sq (by norm_num)
  simp only [impact_hits, stormC9, targetC9, List.flatMap_cons, List.flatMap_nil,
    List.append_nil, List.filterMap_cons, List.filterMap_nil]
  rw [hd, if_neg (by norm_num)]
  simp

/-- Amended claim C9: a target lying exactly on the current-to-forecast
segment gets distance 0 (and hence dist_km = 0 and a hit for every
non-negative radius) whenever the projected segment's squared length
exceeds the 1e-9 degenerate-segment guard; and the returned hit list is
always sorted ascending by dist_km with ties broken descending by
max_composite. -/
theorem C9_impact_hits :
    (∀ (sid tname : String) (lat0 lon0 flat flon tlat tlon radius s : ℝ)
       (mc : Option ℝ),
       0 ≤ s → s ≤ 1 →
       tlon = lon0 + s * (flon - lon0) → tlat = lat0 + s * (flat - lat0) →
       1 / 1000000000 < segVV tlat lat0 flat lon0 flon → 0 ≤ radius →
       impact_hits [⟨sid, some lat0, some lon0, some (flat, flon), none, none, mc⟩]
         [⟨tname, some tlat, some tlon⟩] radius
         = [⟨sid, tname, 0, none, mc, none, none⟩]) ∧
    (∀ (storms : List ImpStorm) (targets : List ImpTarget) (radius_km : ℝ),
       List.Pairwise (fun a b => a.dist_km < b.dist_km ∨
         (a.dist_km = b.dist_km ∧ b.max_composite.getD 0 ≤ a.max_composite.getD 0))
         (impact_hits storms targets radius_km)) :=
  ⟨impact_hits_on_segment, impact_hits_sorted⟩

/-- Witness instantiation of the amended claim C9: a target at the
midpoint of a 111-km segment on the equator is a distance-0 hit. -/
theorem C9_witness :
    impact_hits [⟨"S1", some 0, some 0, some ((0:ℝ), (1:ℝ)), none, none, none⟩]
      [⟨"T", some 0, some (1/2)⟩] 50
      = [⟨"S1", "T", 0, none, none, none, none⟩] :=
  C9_impact_hits.1 "S1" "T" 0 0 0 1 0 (1/2) 50 (1/2) none
    (by norm_num) (by norm_num) (by norm_num) (by norm_num)
    (by norm_num [segVV, deg2rad, Real.cos_zero]) (by norm_num)

end SkyPulse
